import Mathlib

/-!
# Verification of the face_appppppp generation pipeline

A shallow embedding, in Lean 4, of the core of the video-generation server:

* `SessionManager` (src/unnamed/part_007): in-memory session registry with
  stage-status updates,
* the error classifier `handleServiceError` and retry predicate `shouldRetry`
  (src/unnamed/part_004),
* the generic retry wrapper `withRetry` (src/unnamed/part_005),
* `ImageService.generateSceneImages` rolling-reference loop
  (src/server/src/services/image.ts),
* the prompt-validation logic of `OpenAIService.generatePrompts`
  (src/server/src/services/openai.ts),
* `VideoGeneratorService` pipeline including `executeWithRetry` and
  `mergeVideoContent` (src/unnamed/part_006).

Conventions of the embedding:

* JavaScript strings are Lean `String`s; `undefined` string/number fields are
  `Option`s, where `none` models `undefined`.
* Timestamps (`new Date().toISOString()`) are modelled as `Nat` values of a
  logical clock supplied by the caller: each call site receives the value of
  the clock at the moment of the call.
* External effects (model API calls, ffmpeg runs) are modelled by oracles:
  functions from the attempt number to an `Except` outcome, so that one run
  of the pipeline is a pure function of the request and the oracle.
* Fallible code returns `Except`; a thrown JS exception is the `.error` case.
-/

namespace FaceApp

/-! ## Data model (src/server/src/types/index.ts) -/

inductive SessionStatus
  | pending | processing | completed | failed
  deriving DecidableEq, Repr

inductive ProcessingStage
  | prompts | images | videos | audio | merge
  deriving DecidableEq, Repr

inductive StageState
  | pending | processing | completed | error
  deriving DecidableEq, Repr

/-- `StageStatus` record from types/index.ts; optional fields are `Option`s,
`none` modelling `undefined`. -/
structure StageStatus where
  stage : ProcessingStage
  status : StageState
  message : Option String := none
  progress : Option Nat := none
  startTime : Option Nat := none
  endTime : Option Nat := none
  error : Option String := none
  deriving DecidableEq, Repr

inductive ImageProvider
  | ideogram | nanoBanana
  deriving DecidableEq, Repr

/-- `ImageGenerationOptions`; `includeOriginalAnchor?: boolean` is only ever
used in a truthiness test, so `undefined` and `false` behave identically and
are both modelled by `false`. -/
structure ImageGenerationOptions where
  provider : ImageProvider
  outputFormat : Option String := none
  includeOriginalAnchor : Bool := false
  deriving DecidableEq, Repr

structure GenerationRequest where
  sceneCount : Nat
  description : String
  includeVoiceover : Bool
  includeMusic : Bool
  imageOptions : Option ImageGenerationOptions := none
  deriving DecidableEq, Repr

structure GenerationSession where
  sessionId : String
  request : GenerationRequest
  characterImagePath : String
  status : SessionStatus
  stages : List StageStatus
  currentStage : Option ProcessingStage := none
  createdAt : Nat
  updatedAt : Nat
  error : Option String := none
  finalVideoPath : Option String := none
  deriving DecidableEq, Repr

structure ScenePrompts where
  sceneNumber : Nat
  imagePrompt : String
  videoPrompt : String
  deriving DecidableEq, Repr

structure GeneratedPrompts where
  scenePrompts : List ScenePrompts
  voiceoverScript : Option String := none
  musicPrompt : Option String := none
  deriving DecidableEq, Repr

/-! ## SessionManager (src/unnamed/part_007)

The TS `Map<string, GenerationSession>` is modelled as an association list in
insertion order; `Map.get` is the first entry with a matching key.  Mutation
of the session object held in the map is modelled by replacing the entry. -/

structure SessionManager where
  sessions : List (String × GenerationSession)
  deriving DecidableEq, Repr

namespace SessionManager

def empty : SessionManager := ⟨[]⟩

/-- `this.sessions.get(sessionId)` -/
def get (m : SessionManager) (id : String) : Option GenerationSession :=
  (m.sessions.find? (fun p => p.1 == id)).map (·.2)

/-- helper for `set`: replace the entry stored under `id` (keys are unique,
one entry per session id) -/
def setEntries (id : String) (s : GenerationSession) :
    List (String × GenerationSession) → List (String × GenerationSession)
  | [] => []
  | p :: rest =>
      if p.1 == id then (p.1, s) :: setEntries id s rest
      else p :: setEntries id s rest

/-- replace the session stored under an existing key (in-place object
mutation in the TS source) -/
def set (m : SessionManager) (id : String) (s : GenerationSession) : SessionManager :=
  ⟨setEntries id s m.sessions⟩

/-- `this.sessions.set(sessionId, session)` for a fresh key -/
def insert (m : SessionManager) (id : String) (s : GenerationSession) : SessionManager :=
  ⟨(id, s) :: m.sessions⟩

/-- `SessionManager.createSession`: builds the fixed stage list (audio present
iff voiceover or music is requested, merge always last, every stage pending)
and registers the session.  The fresh uuid and the current time are inputs. -/
def createSession (m : SessionManager) (request : GenerationRequest)
    (characterImagePath : String) (sessionId : String) (timestamp : Nat) :
    GenerationSession × SessionManager :=
  let stages : List StageStatus :=
    [{ stage := .prompts, status := .pending },
     { stage := .images, status := .pending },
     { stage := .videos, status := .pending }]
  let stages :=
    if request.includeVoiceover || request.includeMusic then
      stages ++ [{ stage := .audio, status := .pending }]
    else stages
  let stages := stages ++ [{ stage := .merge, status := .pending }]
  let session : GenerationSession :=
    { sessionId := sessionId
      request := request
      characterImagePath := characterImagePath
      status := .pending
      stages := stages
      createdAt := timestamp
      updatedAt := timestamp }
  (session, m.insert sessionId session)

/-- `SessionManager.updateSessionStatus` -/
def updateSessionStatus (m : SessionManager) (sessionId : String)
    (status : SessionStatus) (error : Option String) (errorDetails : Option String)
    (timestamp : Nat) : SessionManager :=
  match m.get sessionId with
  | none => m
  | some session =>
      let session := { session with status := status, updatedAt := timestamp }
      let session :=
        match error with
        | none => session
        | some e => { session with error := some e }
      -- errorDetails is attached to the session object but never read back
      -- by the core; it does not affect any modelled field.
      let _ := errorDetails
      m.set sessionId session

/-- The per-record mutation performed by `updateStageStatus` on the stage it
found: field assignments plus the timestamp discipline.  Returns the updated
record together with whether the `processing`-start branch was taken (which
also sets the session's `currentStage`). -/
def applyStageUpdate (st : StageStatus) (status : StageState)
    (message : Option String) (progress : Option Nat) (error : Option String)
    (timestamp : Nat) : StageStatus × Bool :=
  if status = .processing ∧ st.startTime = none then
    ({ st with status := status, message := message, progress := progress,
               error := error, startTime := some timestamp }, true)
  else if status = .completed ∨ status = .error then
    ({ st with status := status, message := message, progress := progress,
               error := error, endTime := some timestamp }, false)
  else
    ({ st with status := status, message := message, progress := progress,
               error := error }, false)

/-- in-place mutation of the found stage record (`session.stages[stageIndex]`)
within the stage list; stage names are unique within a session's list -/
def replaceStage (stage : ProcessingStage) (updated : StageStatus) :
    List StageStatus → List StageStatus
  | [] => []
  | x :: rest =>
      if x.stage == stage then updated :: replaceStage stage updated rest
      else x :: replaceStage stage updated rest

/-- `SessionManager.updateStageStatus` -/
def updateStageStatus (m : SessionManager) (sessionId : String)
    (stage : ProcessingStage) (status : StageState)
    (message : Option String) (progress : Option Nat) (error : Option String)
    (timestamp : Nat) : SessionManager :=
  match m.get sessionId with
  | none => m
  | some session =>
      match session.stages.find? (fun s => s.stage == stage) with
      | none => m
      | some stageStatus =>
          let (updated, startedProcessing) :=
            applyStageUpdate stageStatus status message progress error timestamp
          let stages := replaceStage stage updated session.stages
          let currentStage :=
            if startedProcessing then some stage
            else if (status = .completed ∨ status = .error) ∧
                session.currentStage = some stage then none
            else session.currentStage
          m.set sessionId
            { session with stages := stages, currentStage := currentStage,
                           updatedAt := timestamp }

/-- `SessionManager.updateSessionFinalVideo` -/
def updateSessionFinalVideo (m : SessionManager) (sessionId : String)
    (videoPath : String) (timestamp : Nat) : SessionManager :=
  match m.get sessionId with
  | none => m
  | some session =>
      m.set sessionId
        { session with finalVideoPath := some videoPath, updatedAt := timestamp }

/-- result type of `getSessionProgress` -/
structure Progress where
  progress : Nat
  currentStage : Option ProcessingStage := none
  deriving DecidableEq, Repr

/-- `Math.round((completedStages / totalStages) * 100)` on naturals:
`(200*c + t) / (2*t)` is `floor(100*c/t + 1/2)`, matching `Math.round`
(halves round up). -/
def roundPercent (completed total : Nat) : Nat :=
  (200 * completed + total) / (2 * total)

/-- `SessionManager.getSessionProgress` -/
def getSessionProgress (m : SessionManager) (sessionId : String) : Progress :=
  match m.get sessionId with
  | none => { progress := 0 }
  | some session =>
      let total := session.stages.length
      let completed := (session.stages.filter (fun s => s.status == .completed)).length
      { progress := roundPercent completed total
        currentStage := session.currentStage }

end SessionManager

/-! ## Error classes and the classifier (src/unnamed/part_004)

`AppError` and its subclasses are modelled as one record carrying the dynamic
class tag (for `instanceof` tests), the fields set by the constructors, and
the pieces of the `context` object that the core reads back
(`reason`, `retryAfter`). -/

/-- the runtime class of an error object (`instanceof` discrimination) -/
inductive AppClass
  | appError
  | validationError
  | serviceUnavailableError
  | rateLimitError
  | authenticationError
  | resourceNotFoundError
  | processingTimeoutError
  deriving DecidableEq, Repr

structure AppErrorModel where
  cls : AppClass
  message : String
  statusCode : Nat := 500
  isOperational : Bool := true
  retryable : Bool := false
  /-- `context.reason` when the constructor sets one -/
  reason : Option String := none
  /-- `context.retryAfter` (RateLimitError) -/
  retryAfter : Option Nat := none
  deriving DecidableEq, Repr

/-- `new ValidationError(message, context)` -/
def mkValidationError (message : String) : AppErrorModel :=
  { cls := .validationError, message := message, statusCode := 400,
    isOperational := true, retryable := false }

/-- `new ServiceUnavailableError(service, details)` -/
def mkServiceUnavailableError (service : String) (reason : Option String := none) :
    AppErrorModel :=
  { cls := .serviceUnavailableError,
    message := service ++ " service is currently unavailable",
    statusCode := 503, isOperational := true, retryable := true,
    reason := reason }

/-- `new RateLimitError(service, retryAfter)` -/
def mkRateLimitError (service : String) (retryAfter : Option Nat) : AppErrorModel :=
  { cls := .rateLimitError, message := "Rate limit exceeded for " ++ service,
    statusCode := 429, isOperational := true, retryable := true,
    retryAfter := retryAfter }

/-- `new AuthenticationError(service)` -/
def mkAuthenticationError (service : String) : AppErrorModel :=
  { cls := .authenticationError,
    message := "Authentication failed for " ++ service,
    statusCode := 401, isOperational := true, retryable := false }

/-- `new ResourceNotFoundError(resource, id)` -/
def mkResourceNotFoundError (resource : String) (id : Option String) : AppErrorModel :=
  { cls := .resourceNotFoundError,
    message := resource ++ (match id with
      | some i => " with ID " ++ i
      | none => "") ++ " not found",
    statusCode := 404, isOperational := true, retryable := false }

/-- `new ProcessingTimeoutError(stage, timeoutMs)` -/
def mkProcessingTimeoutError (stage : String) (timeoutMs : Nat) : AppErrorModel :=
  { cls := .processingTimeoutError,
    message := "Processing timeout after " ++ Nat.repr timeoutMs ++
      "ms in stage: " ++ stage,
    statusCode := 408, isOperational := true, retryable := true }

/-- a raw (unclassified) JS error as observed by `handleServiceError`:
only the fields the classifier inspects.  A missing / `undefined` `message`
behaves like the empty string in every truthiness and `includes` test the
classifier performs, so it is modelled by `""`. -/
structure RawErrorModel where
  code : Option String := none
  message : String := ""
  /-- `error.retry_after` -/
  retryAfter : Option Nat := none
  /-- `error.path` -/
  path : Option String := none
  deriving DecidableEq, Repr

/-- JS `String.prototype.includes`: substring test. -/
def strContains (s needle : String) : Bool :=
  s.toList.tails.any (fun t => needle.toList.isPrefixOf t)

/-- `handleServiceError(error, context)`: the classification cascade.
`service` and `stage` are the only `context` fields read. -/
def handleServiceError (e : RawErrorModel) (service : Option String)
    (stage : Option String) : AppErrorModel :=
  if e.code == some "insufficient_quota" then
    mkServiceUnavailableError "OpenAI" (some "quota_exceeded")
  else if e.code == some "rate_limit_exceeded" then
    mkRateLimitError "OpenAI" e.retryAfter
  else if strContains e.message "prediction failed" then
    mkServiceUnavailableError "Kling Video Generation" (some "prediction_failed")
  else if strContains e.message "quota" then
    mkServiceUnavailableError "ElevenLabs" (some "quota_exceeded")
  else if e.code == some "ENOTFOUND" || e.code == some "ECONNREFUSED" then
    mkServiceUnavailableError (service.getD "External Service") (some "network_error")
  else if e.code == some "ETIMEDOUT" || strContains e.message "timeout" then
    mkProcessingTimeoutError (stage.getD "unknown") 30000
  else if strContains e.message "ffmpeg" || strContains e.message "ffprobe" then
    { cls := .appError, message := "Video processing failed", statusCode := 500,
      isOperational := true, retryable := true, reason := some "ffmpeg_error" }
  else if e.code == some "ENOENT" then
    mkResourceNotFoundError "File" e.path
  else if e.code == some "EACCES" || e.code == some "EPERM" then
    { cls := .appError, message := "File permission denied", statusCode := 500,
      isOperational := true, retryable := false, reason := some "permission_error" }
  else if e.code == some "ENOSPC" then
    { cls := .appError, message := "Insufficient disk space", statusCode := 507,
      isOperational := true, retryable := false, reason := some "disk_full" }
  else if strContains e.message "502" || strContains e.message "503" ||
      strContains e.message "504" || strContains e.message "temporary" then
    { cls := .appError, message := e.message, statusCode := 503,
      isOperational := true, retryable := true }
  else
    { cls := .appError,
      message := if e.message = "" then "An unexpected error occurred" else e.message,
      statusCode := 500, isOperational := true, retryable := false }

/-- the spec's closed taxonomy of error kinds (§4.3) -/
inductive ErrorKind
  | validation | authentication | rateLimited | serviceUnavailable | timeout
  | resourceNotFound | permissionDenied | diskFull | unknown
  deriving DecidableEq, Repr

/-- The spec-taxonomy kind of a classified error, read off the observable
fields of the classifier's output: the subclass tag for the dedicated
subclasses, and the `context.reason` / status code for the branches that
return a plain `AppError` (permission, disk-full, ffmpeg, generic 5xx,
fallback).  The ffmpeg branch and the generic-retryable branch are the spec's
"ServiceUnavailable-equivalent" local-engine failures (§4.5). -/
def AppErrorModel.kind (e : AppErrorModel) : ErrorKind :=
  match e.cls with
  | .validationError => .validation
  | .authenticationError => .authentication
  | .rateLimitError => .rateLimited
  | .serviceUnavailableError => .serviceUnavailable
  | .processingTimeoutError => .timeout
  | .resourceNotFoundError => .resourceNotFound
  | .appError =>
      if e.reason == some "permission_error" then .permissionDenied
      else if e.reason == some "disk_full" then .diskFull
      else if e.reason == some "ffmpeg_error" then .serviceUnavailable
      else if e.statusCode == 503 && e.retryable then .serviceUnavailable
      else .unknown

/-- `shouldRetry(error, attempt, maxRetries)` -/
def shouldRetry (e : AppErrorModel) (attempt maxRetries : Nat) : Bool :=
  if maxRetries ≤ attempt then false
  else if !e.retryable then false
  else if e.cls == .validationError then false
  else if e.cls == .authenticationError then false
  else true

/-! ## The generic retry wrapper `withRetry` (src/unnamed/part_005)

The wrapped operation is an oracle from the 1-based attempt number to its
outcome; `withRetry` returns the final outcome together with the number of
invocations performed.  `Except.error none` models the degenerate
`throw lastError` with `lastError` still `undefined` (only reachable when
`maxAttempts = 0`).  Delays and jitter do not influence control flow and are
not modelled. -/

structure RetryOptions (E : Type) where
  maxAttempts : Nat
  baseDelayMs : Nat := 1000
  maxDelayMs : Nat := 30000
  backoffMultiplier : Nat := 2
  /-- `retryableErrors?: (error) => boolean`; `none` models `undefined`,
  in which case `withRetry` treats every error as retryable. -/
  retryableErrors : Option (E → Bool) := none

/-- the attempt loop of `withRetry`; `fuel` is the number of attempts still
allowed (`maxAttempts - attempt + 1` at entry). -/
def withRetryGo {E A : Type} (op : Nat → Except E A) (isRetryable : E → Bool)
    (attempt : Nat) : Nat → Except (Option E) A × Nat
  | 0 => (.error none, 0)
  | fuel + 1 =>
      match op attempt with
      | .ok a => (.ok a, 1)
      | .error e =>
          -- `if (!isRetryable || isLastAttempt) break;` then `throw lastError`
          if isRetryable e && fuel != 0 then
            let rn := withRetryGo op isRetryable (attempt + 1) fuel
            (rn.1, rn.2 + 1)
          else
            (.error (some e), 1)

/-- `const isRetryable = opts.retryableErrors ? opts.retryableErrors(error) : true` -/
def RetryOptions.isRetryable {E : Type} (opts : RetryOptions E) (e : E) : Bool :=
  match opts.retryableErrors with
  | some f => f e
  | none => true

/-- `withRetry(operation, options, context)`: result plus invocation count. -/
def withRetry {E A : Type} (op : Nat → Except E A) (opts : RetryOptions E) :
    Except (Option E) A × Nat :=
  withRetryGo op opts.isRetryable 1 opts.maxAttempts

/-! ## The orchestrator's retry loop `executeWithRetry` (src/unnamed/part_006)

A thrown value is either an `AppError` already (`instanceof AppError`) or a
raw error that `handleServiceError` classifies first. -/

inductive ThrownError
  | app (e : AppErrorModel)
  | raw (e : RawErrorModel)
  deriving DecidableEq, Repr

/-- `error instanceof AppError ? error : handleServiceError(error, ctx)` -/
def toAppError (t : ThrownError) (service stage : Option String) : AppErrorModel :=
  match t with
  | .app e => e
  | .raw r => handleServiceError r service stage

/-- the attempt loop of `VideoGeneratorService.executeWithRetry`; as in
`withRetryGo`, `fuel = maxRetries - attempt + 1` at entry and
`Except.error none` models the unreachable `throw lastError` with a `null`
`lastError`. -/
def executeWithRetryGo {A : Type} (op : Nat → Except ThrownError A)
    (stage : Option String) (maxRetries : Nat) (attempt : Nat) :
    Nat → Except (Option AppErrorModel) A × Nat
  | 0 => (.error none, 0)
  | fuel + 1 =>
      match op attempt with
      | .ok a => (.ok a, 1)
      | .error err =>
          let appError := toAppError err none stage
          if shouldRetry appError attempt maxRetries then
            let rn := executeWithRetryGo op stage maxRetries (attempt + 1) fuel
            (rn.1, rn.2 + 1)
          else
            (.error (some appError), 1)

/-- `executeWithRetry(operation, stage, sessionId, maxRetries = 3)`:
result plus invocation count. -/
def executeWithRetry {A : Type} (op : Nat → Except ThrownError A)
    (stage : Option String) (maxRetries : Nat := 3) :
    Except (Option AppErrorModel) A × Nat :=
  executeWithRetryGo op stage maxRetries 1 maxRetries

/-! ## ImageService (src/server/src/services/image.ts)

`generateSceneImages` iterates the scenes, passing `previousImagePath` (the
rolling reference) into each `generateSingleSceneImage` call; the scene's
output path is `path.join(config.imagesDir, sessionId, "scene-{n}.png")`,
which is deterministic, so the model records the call made to the image model
(reference inputs) and the returned output path. -/

/-- `path.join(config.imagesDir, sessionId, "scene-" + n + ".png")` -/
def sceneImageOutputPath (imagesDir sessionId : String) (sceneNumber : Nat) : String :=
  imagesDir ++ "/" ++ sessionId ++ "/scene-" ++ Nat.repr sceneNumber ++ ".png"

/-- one call issued to the image model by `generateSingleSceneImage`:
the scene number, the prompt, the rolling reference path, and the full list
of reference-image inputs actually passed to the model (the `image_input`
array for nano-banana; the single `character_reference_image` for ideogram). -/
structure ImageGenCall where
  sceneNumber : Nat
  prompt : String
  referenceImagePath : String
  imageInput : List String
  deriving DecidableEq, Repr

/-- the reference images passed to the model call, by path:
nano-banana sends `[reference, original]` when `includeOriginalAnchor` is
truthy and `[reference]` otherwise; ideogram always sends only the
`character_reference_image`. -/
def referenceInputs (options : ImageGenerationOptions)
    (referencePath originalPath : String) : List String :=
  match options.provider with
  | .nanoBanana =>
      if options.includeOriginalAnchor then [referencePath, originalPath]
      else [referencePath]
  | .ideogram => [referencePath]

/-- the loop body of `generateSceneImages`: `i` is the 0-based index of the
next scene, `previousImagePath` the current rolling reference.  Returns the
image paths in scene order together with the calls issued. -/
def generateSceneImagesAux (imagesDir sessionId : String)
    (options : ImageGenerationOptions) (originalCharacterImagePath : String) :
    List ScenePrompts → String → Nat → List String × List ImageGenCall
  | [], _, _ => ([], [])
  | scene :: rest, previousImagePath, i =>
      let sceneImagePath := sceneImageOutputPath imagesDir sessionId (i + 1)
      let call : ImageGenCall :=
        { sceneNumber := i + 1
          prompt := scene.imagePrompt
          referenceImagePath := previousImagePath
          imageInput :=
            referenceInputs options previousImagePath originalCharacterImagePath }
      let tail :=
        generateSceneImagesAux imagesDir sessionId options
          originalCharacterImagePath rest sceneImagePath (i + 1)
      (sceneImagePath :: tail.1, call :: tail.2)

/-- `ImageService.generateSceneImages`: the rolling reference starts at the
uploaded character image. -/
def generateSceneImages (imagesDir : String) (scenePrompts : List ScenePrompts)
    (originalCharacterImagePath sessionId : String)
    (options : ImageGenerationOptions) : List String × List ImageGenCall :=
  generateSceneImagesAux imagesDir sessionId options originalCharacterImagePath
    scenePrompts originalCharacterImagePath 0

/-! ## Prompt validation in `OpenAIService.generatePrompts`
(src/server/src/services/openai.ts, lines 119-141)

The network call and JSON parsing are collaborator territory; the validation
applied to the parsed `GeneratedPrompts` value is pure and modelled here.
A failed check throws a plain `Error` (a `RawErrorModel` carrying only a
message), NOT a `ValidationError`. -/

/-- message of `Expected ${sceneCount} scenes, got ${n}` -/
def countMismatchMessage (sceneCount got : Nat) : String :=
  "Expected " ++ Nat.repr sceneCount ++ " scenes, got " ++ Nat.repr got

/-- message of `Invalid scene prompt structure for scene ${n}` -/
def badSceneMessage (sceneNumber : Nat) : String :=
  "Invalid scene prompt structure for scene " ++ Nat.repr sceneNumber

/-- the validation cascade of `generatePrompts` applied to the parsed
response; truthiness of a string field is non-emptiness. -/
def validateGeneratedPrompts (sceneCount : Nat)
    (includeVoiceover includeMusic : Bool) (p : GeneratedPrompts) :
    Except RawErrorModel GeneratedPrompts :=
  if p.scenePrompts.length ≠ sceneCount then
    .error { message := countMismatchMessage sceneCount p.scenePrompts.length }
  else
    match p.scenePrompts.find?
        (fun s => s.imagePrompt == "" || s.videoPrompt == "") with
    | some s => .error { message := badSceneMessage s.sceneNumber }
    | none =>
        if includeVoiceover &&
            (p.voiceoverScript == none || p.voiceoverScript == some "") then
          .error { message := "Voiceover requested but not provided in response" }
        else if includeMusic &&
            (p.musicPrompt == none || p.musicPrompt == some "") then
          .error { message := "Music requested but not provided in response" }
        else
          .ok p

/-! ## Merge stage core (src/unnamed/part_006, `mergeVideoContent`;
src/unnamed/part_009, `FFmpegService`)

`mergeVideoContent` concatenates the scene videos, then either mixes in
audio (only when `audioPaths` exists and has a truthy `voiceoverPaths` or
`musicPath`) or copies the concatenation verbatim to `final_video.mp4`.
The ffmpeg runs are external; their success/failure comes from oracles, and
the model records the filesystem/ffmpeg actions performed. -/

/-- the `audioPaths` object saved into the artifacts:
`voiceoverPaths` truthiness is presence (a JS array, even empty, is truthy);
`musicPath` truthiness is presence of a non-empty string. -/
structure AudioPathsArtifact where
  voiceoverPaths : Option (List String) := none
  musicPath : Option String := none
  deriving DecidableEq, Repr

/-- truthiness of an optional JS string -/
def strTruthy : Option String → Bool
  | none => false
  | some s => s ≠ ""

/-- the per-session artifacts checkpoint (`runs/<sid>/artifacts.json`),
restricted to the fields the pipeline reads back -/
structure Artifacts where
  prompts : Option GeneratedPrompts := none
  imagePaths : Option (List String) := none
  videoPaths : Option (List String) := none
  audioPaths : Option AudioPathsArtifact := none
  finalVideoPath : Option String := none
  deriving DecidableEq, Repr

/-- an observable action of the merge stage -/
inductive MergeAction
  | concatenate (inputs : List String) (output : String)
  | mixAudio (video : String) (musicPath : String) (output : String)
  | copy (src dst : String)
  deriving DecidableEq, Repr

def MergeAction.isMix : MergeAction → Bool
  | .mixAudio _ _ _ => true
  | _ => false

/-- outcome oracles for the two external ffmpeg operations of the merge
stage: `none` is success, `some e` is the error the promise rejects with -/
structure MergeOracles where
  concatErr : Option RawErrorModel := none
  mixErr : Option RawErrorModel := none
  deriving DecidableEq, Repr

/-- the body of `mergeVideoContent` after reading the artifacts: returns the
updated artifacts and final path on success (or the thrown error), together
with the ffmpeg/filesystem actions performed in order. -/
def mergeVideoContentCore (runsDir sessionId : String) (arts : Artifacts)
    (oracle : MergeOracles) :
    Except RawErrorModel (Artifacts × String) × List MergeAction :=
  match arts.videoPaths with
  | none => (.error { message := "No video paths found for merging" }, [])
  | some videoPaths =>
      if videoPaths.length = 0 then
        (.error { message := "No video paths found for merging" }, [])
      else
        let sessionDir := runsDir ++ "/" ++ sessionId
        let finalVideoPath := sessionDir ++ "/final_video.mp4"
        let mergedVideoPath := sessionDir ++ "/merged_scenes.mp4"
        let concatAct := MergeAction.concatenate videoPaths mergedVideoPath
        match oracle.concatErr with
        | some e => (.error e, [concatAct])
        | none =>
            -- `if (audioPaths && (audioPaths.voiceoverPaths || audioPaths.musicPath))`
            match arts.audioPaths with
            | some audioPaths =>
                if audioPaths.voiceoverPaths ≠ none ∨ strTruthy audioPaths.musicPath then
                  match audioPaths.musicPath with
                  | some musicPath =>
                      if musicPath ≠ "" then
                        let mixAct := MergeAction.mixAudio mergedVideoPath musicPath finalVideoPath
                        match oracle.mixErr with
                        | some e => (.error e, [concatAct, mixAct])
                        | none =>
                            (.ok ({ arts with finalVideoPath := some finalVideoPath },
                                  finalVideoPath),
                             [concatAct, mixAct])
                      else
                        -- truthy voiceoverPaths but falsy musicPath: neither mix
                        -- nor copy runs; the stage still "succeeds".
                        (.ok ({ arts with finalVideoPath := some finalVideoPath },
                              finalVideoPath),
                         [concatAct])
                  | none =>
                      (.ok ({ arts with finalVideoPath := some finalVideoPath },
                            finalVideoPath),
                       [concatAct])
                else
                  (.ok ({ arts with finalVideoPath := some finalVideoPath },
                        finalVideoPath),
                   [concatAct, .copy mergedVideoPath finalVideoPath])
            | none =>
                (.ok ({ arts with finalVideoPath := some finalVideoPath },
                      finalVideoPath),
                 [concatAct, .copy mergedVideoPath finalVideoPath])

/-! ## One run of `VideoGeneratorService.generateVideo` (src/unnamed/part_006)

External collaborator calls are oracles indexed by the attempt number of the
enclosing `executeWithRetry` loop.  One run is a pure function of the
request, the oracles, the fresh session id and the initial clock.

`attemptRecovery` never mutates the session store, and when a recovery
strategy claims success `generateVideo` is re-entered from scratch with a
fresh uuid, i.e. a brand-new session; a single run of the session created
here is therefore modelled, which is what the per-session claims are about. -/

def ThrownError.message : ThrownError → String
  | .app e => e.message
  | .raw e => e.message

/-- oracles for every external call the pipeline makes, per attempt number -/
structure PipelineOracles where
  promptsResult : Nat → Except ThrownError GeneratedPrompts
  imagesResult : Nat → Except ThrownError (List String)
  videosResult : Nat → Except ThrownError (List String)
  musicResult : Nat → Except ThrownError String
  mergeResult : Nat → MergeOracles

/-- the mutable state threaded through one run: the session store, the
artifacts checkpoint of this session, the logical clock, and the log of
merge-stage media actions -/
structure RunState where
  mgr : SessionManager
  arts : Artifacts := {}
  clock : Nat
  mergeActions : List MergeAction := []

/-- `updateStageStatus` at the current clock tick -/
def RunState.stageUpdate (st : RunState) (sid : String) (stage : ProcessingStage)
    (status : StageState) (message : Option String := none)
    (progress : Option Nat := none) (error : Option String := none) : RunState :=
  { st with
    mgr := st.mgr.updateStageStatus sid stage status message progress error st.clock
    clock := st.clock + 1 }

/-- `updateSessionStatus` at the current clock tick -/
def RunState.sessionUpdate (st : RunState) (sid : String) (status : SessionStatus)
    (error : Option String := none) : RunState :=
  { st with
    mgr := st.mgr.updateSessionStatus sid status error none st.clock
    clock := st.clock + 1 }

/-- `VideoGeneratorService.generatePrompts` (one attempt); the collaborator
call plus validation is the oracle's outcome.  `saveSessionArtifacts(sid,
{ prompts })` rewrites the checkpoint with only the prompts field. -/
def promptsStageOp (sid : String) (oracle : Nat → Except ThrownError GeneratedPrompts)
    (attempt : Nat) (st : RunState) : RunState × Except ThrownError PUnit :=
  let st1 := st.stageUpdate sid .prompts .processing (some "Generating scene prompts...")
  match oracle attempt with
  | .ok prompts =>
      let st2 := { st1 with arts := { prompts := some prompts } }
      (st2.stageUpdate sid .prompts .completed
        (some ("Generated prompts for " ++ Nat.repr prompts.scenePrompts.length ++
          " scenes")), .ok ())
  | .error e =>
      (st1.stageUpdate sid .prompts .error (some "Failed to generate prompts")
        none (some e.message), .error e)

/-- `VideoGeneratorService.generateImages` (one attempt) -/
def imagesStageOp (sid : String) (oracle : Nat → Except ThrownError (List String))
    (attempt : Nat) (st : RunState) : RunState × Except ThrownError PUnit :=
  let st1 := st.stageUpdate sid .images .processing (some "Generating scene images...")
  -- `stageUpdate` does not touch the artifacts, so reading them before or
  -- after the status write is the same value
  match st.arts.prompts with
  | none =>
      let e : ThrownError := .raw { message := "No scene prompts found in artifacts" }
      (st1.stageUpdate sid .images .error (some "Failed to generate images")
        none (some e.message), .error e)
  | some _ =>
      match oracle attempt with
      | .ok imagePaths =>
          let st2 := { st1 with arts := { st1.arts with imagePaths := some imagePaths } }
          (st2.stageUpdate sid .images .completed
            (some ("Generated " ++ Nat.repr imagePaths.length ++
              " scene images with character consistency")), .ok ())
      | .error e =>
          (st1.stageUpdate sid .images .error (some "Failed to generate images")
            none (some e.message), .error e)

/-- `VideoGeneratorService.generateVideos` (one attempt) -/
def videosStageOp (sid : String) (oracle : Nat → Except ThrownError (List String))
    (attempt : Nat) (st : RunState) : RunState × Except ThrownError PUnit :=
  let st1 := st.stageUpdate sid .videos .processing (some "Generating scene videos...")
  if st.arts.prompts = none ∨ st.arts.imagePaths = none then
    let e : ThrownError := .raw { message := "Missing prompts or image paths in artifacts" }
    (st1.stageUpdate sid .videos .error (some "Failed to generate videos")
      none (some e.message), .error e)
  else
    match oracle attempt with
    | .ok videoPaths =>
        let st2 := { st1 with arts := { st1.arts with videoPaths := some videoPaths } }
        (st2.stageUpdate sid .videos .completed
          (some ("Generated " ++ Nat.repr videoPaths.length ++ " scene videos")), .ok ())
    | .error e =>
        (st1.stageUpdate sid .videos .error (some "Failed to generate videos")
          none (some e.message), .error e)

/-- `VideoGeneratorService.generateAudio` (one attempt): voiceover synthesis
is disabled in this path, so at most a `musicPath` is ever written and
`voiceoverPaths` stays absent. -/
def audioStageOp (sid : String) (req : GenerationRequest)
    (oracle : Nat → Except ThrownError String)
    (attempt : Nat) (st : RunState) : RunState × Except ThrownError PUnit :=
  let st1 := st.stageUpdate sid .audio .processing (some "Generating audio content...")
  match st.arts.prompts with
  | none =>
      let e : ThrownError := .raw { message := "No prompts found in artifacts" }
      (st1.stageUpdate sid .audio .error (some "Failed to generate audio")
        none (some e.message), .error e)
  | some prompts =>
      if req.includeMusic && strTruthy prompts.musicPrompt then
        match oracle attempt with
        | .ok musicPath =>
            let audioPaths : AudioPathsArtifact := { musicPath := some musicPath }
            let st2 := { st1 with arts := { st1.arts with audioPaths := some audioPaths } }
            (st2.stageUpdate sid .audio .completed (some "Audio generation completed"), .ok ())
        | .error e =>
            (st1.stageUpdate sid .audio .error (some "Failed to generate audio")
              none (some e.message), .error e)
      else
        let st2 := { st1 with arts := { st1.arts with audioPaths := some {} } }
        (st2.stageUpdate sid .audio .completed (some "Audio generation completed"), .ok ())

/-- `VideoGeneratorService.mergeVideoContent` (one attempt) -/
def mergeStageOp (sid runsDir : String) (oracle : Nat → MergeOracles)
    (attempt : Nat) (st : RunState) : RunState × Except ThrownError PUnit :=
  let st1 := st.stageUpdate sid .merge .processing (some "Merging videos and audio...")
  -- the artifacts read by the core are unchanged by the status write
  let ra := mergeVideoContentCore runsDir sid st.arts (oracle attempt)
  let st2 := { st1 with mergeActions := st1.mergeActions ++ ra.2 }
  match ra.1 with
  | .ok (arts, finalVideoPath) =>
      let st3 := { st2 with
        mgr := st2.mgr.updateSessionFinalVideo sid finalVideoPath st2.clock
        clock := st2.clock + 1 }
      let st4 := { st3 with arts := arts }
      (st4.stageUpdate sid .merge .completed
        (some "Video merging completed successfully"), .ok ())
  | .error e =>
      (st2.stageUpdate sid .merge .error (some "Failed to merge video content")
        none (some e.message), .error (.raw e))

/-- state-threaded form of the `executeWithRetry` loop (the wrapped stage
operations mutate the session store); same control flow as
`executeWithRetryGo`. -/
def executeWithRetryS (op : Nat → RunState → RunState × Except ThrownError PUnit)
    (stage : Option String) (maxRetries : Nat) :
    Nat → Nat → RunState → RunState × Except (Option AppErrorModel) PUnit
  | _, 0, st => (st, .error none)
  | attempt, fuel + 1, st =>
      let str := op attempt st
      match str.2 with
      | .ok _ => (str.1, .ok ())
      | .error err =>
          let appError := toAppError err none stage
          if shouldRetry appError attempt maxRetries then
            executeWithRetryS op stage maxRetries (attempt + 1) fuel str.1
          else
            (str.1, .error (some appError))

/-- sequencing of one stage's retry-wrapped result with the rest of the
pipeline: a thrown error short-circuits (the `await` raises and the
enclosing `try` in `generateVideo` takes over) -/
def pipelineStep (stageResult : RunState × Except (Option AppErrorModel) PUnit)
    (rest : RunState → RunState × Except (Option AppErrorModel) PUnit) :
    RunState × Except (Option AppErrorModel) PUnit :=
  match stageResult.2 with
  | .error e => (stageResult.1, .error e)
  | .ok _ => rest stageResult.1

/-- `executeGenerationPipeline`: the five stages in order, each wrapped in
`executeWithRetry` with the default `maxRetries = 3`; the audio stage runs
only when voiceover or music is requested. -/
def executeGenerationPipeline (req : GenerationRequest) (sid runsDir : String)
    (oracles : PipelineOracles) (st : RunState) :
    RunState × Except (Option AppErrorModel) PUnit :=
  pipelineStep (executeWithRetryS (promptsStageOp sid oracles.promptsResult)
      (some "prompts") 3 1 3 st) (fun st1 =>
    pipelineStep (executeWithRetryS (imagesStageOp sid oracles.imagesResult)
        (some "images") 3 1 3 st1) (fun st2 =>
      pipelineStep (executeWithRetryS (videosStageOp sid oracles.videosResult)
          (some "videos") 3 1 3 st2) (fun st3 =>
        pipelineStep
          (if req.includeVoiceover || req.includeMusic then
            executeWithRetryS (audioStageOp sid req oracles.musicResult)
              (some "audio") 3 1 3 st3
          else (st3, .ok ())) (fun st4 =>
          executeWithRetryS (mergeStageOp sid runsDir oracles.mergeResult)
            (some "merge") 3 1 3 st4))))

/-- the epilogue of `generateVideo`: mark the session `completed` on
success, or `failed` with the error summary's message on failure.
`error instanceof AppError ? error : handleServiceError(error, ...)`: the
`none` case models a rethrown `null` lastError (unreachable with
`maxRetries = 3`), which the catch classifies from scratch;
`createErrorSummary(appError).message` is `appError.message`. -/
def finishRun (sessionId : String)
    (pr : RunState × Except (Option AppErrorModel) PUnit) :
    RunState × Except AppErrorModel String :=
  match pr.2 with
  | .ok _ =>
      (pr.1.sessionUpdate sessionId .completed, .ok sessionId)
  | .error e =>
      let appError := match e with
        | some e2 => e2
        | none => handleServiceError {} none none
      (pr.1.sessionUpdate sessionId .failed (some appError.message), .error appError)

/-- `generateVideo(request, characterImagePath)`: create the session, mark
it `processing`, run the pipeline, and finish. -/
def generateVideoRun (req : GenerationRequest)
    (characterImagePath sessionId runsDir : String) (oracles : PipelineOracles)
    (m0 : SessionManager) (clock0 : Nat) : RunState × Except AppErrorModel String :=
  finishRun sessionId
    (executeGenerationPipeline req sessionId runsDir oracles
      (RunState.sessionUpdate
        { mgr := (m0.createSession req characterImagePath sessionId clock0).2,
          clock := clock0 + 1 }
        sessionId .processing))

/-! ## Derived accessors and run predicates used by the theorems -/

/-- the stored record of one stage of one session -/
def stageRecord (m : SessionManager) (id : String) (stage : ProcessingStage) :
    Option StageStatus :=
  (m.get id).bind (fun s => s.stages.find? (fun st => st.stage == stage))

/-- the merge stage's record on a session -/
def mergeRecordOf (s : GenerationSession) : Option StageStatus :=
  s.stages.find? (fun x => x.stage == .merge)

def finalVideoFile (runsDir sid : String) : String :=
  runsDir ++ "/" ++ sid ++ "/final_video.mp4"

def mergedScenesFile (runsDir sid : String) : String :=
  runsDir ++ "/" ++ sid ++ "/merged_scenes.mp4"

/-- does this media action write the session's final video file? -/
def writesFinal (runsDir sid : String) : MergeAction → Bool
  | .copy _ dst => dst == finalVideoFile runsDir sid
  | .mixAudio _ _ dst => dst == finalVideoFile runsDir sid
  | .concatenate _ _ => false

/-- invariant of a store before a session's merge stage has completed: the
session is registered, its merge stage exists and is not `completed`, and no
final video path is exposed -/
def mgrMergeSafe (m : SessionManager) (sid : String) : Prop :=
  ∃ s rec, m.get sid = some s ∧ mergeRecordOf s = some rec ∧
    rec.status ≠ .completed ∧ s.finalVideoPath = none

/-- store state after a successful merge: merge stage completed and the
session's final video path exposed -/
def mgrMergeDone (m : SessionManager) (sid runsDir : String) : Prop :=
  ∃ s rec, m.get sid = some s ∧ mergeRecordOf s = some rec ∧
    rec.status = .completed ∧
    s.finalVideoPath = some (finalVideoFile runsDir sid)

/-- the pipeline never writes `voiceoverPaths` into the artifacts
(voiceover generation is hard-disabled in `generateAudio`) -/
def artsNoVoiceover (a : Artifacts) : Prop :=
  ∀ ap, a.audioPaths = some ap → ap.voiceoverPaths = none

def runSafe (st : RunState) (sid : String) : Prop :=
  mgrMergeSafe st.mgr sid ∧ artsNoVoiceover st.arts

/-- run state after a successful merge: merge stage completed, the final
video path exposed, and a media action actually wrote the final file -/
def mergeDone (st : RunState) (sid runsDir : String) : Prop :=
  mgrMergeDone st.mgr sid runsDir ∧
  ∃ a ∈ st.mergeActions, writesFinal runsDir sid a = true

/-- the substrings whose presence routes `handleServiceError` away from its
generic fallback branch -/
def classifierTriggers : List String :=
  ["prediction failed", "quota", "timeout", "ffmpeg", "ffprobe",
   "502", "503", "504", "temporary"]

def strContainsAny (s : String) (needles : List String) : Bool :=
  needles.any (fun n => strContains s n)

/-! ## Store lemmas -/

theorem get_insert_self (m : SessionManager) (id : String) (s : GenerationSession) :
    (m.insert id s).get id = some s := by
  simp [SessionManager.insert, SessionManager.get, List.find?]

theorem get_set_eq (m : SessionManager) (id : String) (s : GenerationSession) :
    (m.set id s).get id = (m.get id).map (fun _ => s) := by
  rcases m with ⟨l⟩
  induction l with
  | nil => rfl
  | cons p rest ih =>
      by_cases h : (p.1 == id) = true
      · simp [SessionManager.set, SessionManager.get, SessionManager.setEntries,
          List.find?_cons, h]
      · have hb : (p.1 == id) = false := by simpa using h
        simpa [SessionManager.set, SessionManager.get, SessionManager.setEntries,
          List.find?_cons, hb] using ih

theorem get_set_of_get (m : SessionManager) (id : String)
    (s s0 : GenerationSession) (h : m.get id = some s0) :
    (m.set id s).get id = some s := by
  rw [get_set_eq, h, Option.map_some']

/-! ## Stage-record lemmas -/

theorem applyStageUpdate_stage (st : StageStatus) (status : StageState)
    (msg : Option String) (prog : Option Nat) (err : Option String) (t : Nat) :
    ((SessionManager.applyStageUpdate st status msg prog err t).1).stage = st.stage := by
  unfold SessionManager.applyStageUpdate
  split
  · rfl
  · split <;> rfl

theorem applyStageUpdate_startTime_some (st : StageStatus) (status : StageState)
    (msg : Option String) (prog : Option Nat) (err : Option String) (t t0 : Nat)
    (h : st.startTime = some t0) :
    ((SessionManager.applyStageUpdate st status msg prog err t).1).startTime = some t0 := by
  unfold SessionManager.applyStageUpdate
  split
  · next hc => exact absurd (hc.2.symm.trans h) (by simp)
  · split <;> simpa using h

theorem applyStageUpdate_processing_startTime (st : StageStatus)
    (msg : Option String) (prog : Option Nat) (err : Option String) (t : Nat) :
    ((SessionManager.applyStageUpdate st .processing msg prog err t).1).startTime =
      (match st.startTime with
       | none => some t
       | some t0 => some t0) := by
  unfold SessionManager.applyStageUpdate
  rcases h : st.startTime with _ | t0 <;> simp [h]

theorem applyStageUpdate_endTime_done (st : StageStatus) (status : StageState)
    (msg : Option String) (prog : Option Nat) (err : Option String) (t : Nat)
    (h : status = .completed ∨ status = .error) :
    ((SessionManager.applyStageUpdate st status msg prog err t).1).endTime = some t := by
  have hp : ¬ (status = StageState.processing ∧ st.startTime = none) := by
    rcases h with h | h <;> simp [h]
  unfold SessionManager.applyStageUpdate
  rw [if_neg hp, if_pos h]

theorem applyStageUpdate_status (st : StageStatus) (status : StageState)
    (msg : Option String) (prog : Option Nat) (err : Option String) (t : Nat) :
    ((SessionManager.applyStageUpdate st status msg prog err t).1).status = status := by
  unfold SessionManager.applyStageUpdate
  split
  · rfl
  · split <;> rfl

theorem find?_replaceStage_self (l : List StageStatus) (stage : ProcessingStage)
    (updated : StageStatus) (hst : updated.stage = stage) (rec : StageStatus)
    (h : l.find? (fun x => x.stage == stage) = some rec) :
    (SessionManager.replaceStage stage updated l).find?
      (fun x => x.stage == stage) = some updated := by
  induction l with
  | nil => simp at h
  | cons x rest ih =>
      by_cases hx : (x.stage == stage) = true
      · simp [SessionManager.replaceStage, hx, List.find?_cons, hst]
      · have hb : (x.stage == stage) = false := by simpa using hx
        simp only [List.find?_cons, hb] at h
        simp only [SessionManager.replaceStage, hb, if_false, Bool.false_eq_true,
          List.find?_cons]
        exact ih h

theorem find?_replaceStage_other (l : List StageStatus) (stage stage' : ProcessingStage)
    (updated : StageStatus) (hst : updated.stage = stage) (h : stage' ≠ stage) :
    (SessionManager.replaceStage stage updated l).find?
      (fun x => x.stage == stage') = l.find? (fun x => x.stage == stage') := by
  induction l with
  | nil => rfl
  | cons x rest ih =>
      by_cases hx : (x.stage == stage) = true
      · have hxe : x.stage = stage := by simpa using hx
        have h1 : (updated.stage == stage') = false := by
          simp [hst, Ne.symm h]
        have h2 : (x.stage == stage') = false := by
          simp [hxe, Ne.symm h]
        simp [SessionManager.replaceStage, hx, List.find?_cons, h1, h2, ih]
      · have hb : (x.stage == stage) = false := by simpa using hx
        simp only [SessionManager.replaceStage, hb, if_false, Bool.false_eq_true,
          List.find?_cons]
        cases hx2 : (x.stage == stage') with
        | true => simp [hx2]
        | false => simpa [hx2] using ih

/-! ## Characterizations of the update operations -/

theorem get_updateSessionStatus_some (m : SessionManager) (id : String)
    (status : SessionStatus) (err errD : Option String) (t : Nat)
    (s : GenerationSession) (h : m.get id = some s) :
    (m.updateSessionStatus id status err errD t).get id =
      some (match err with
        | none => { s with status := status, updatedAt := t }
        | some e => { s with status := status, updatedAt := t, error := some e }) := by
  unfold SessionManager.updateSessionStatus
  rw [h]
  cases err <;> simp [get_set_of_get m id _ s h]

theorem updateSessionStatus_absent (m : SessionManager) (id : String)
    (status : SessionStatus) (err errD : Option String) (t : Nat)
    (h : m.get id = none) :
    m.updateSessionStatus id status err errD t = m := by
  unfold SessionManager.updateSessionStatus
  rw [h]

theorem updateSessionStatus_stages (m : SessionManager) (id : String)
    (status : SessionStatus) (err errD : Option String) (t : Nat) :
    ((m.updateSessionStatus id status err errD t).get id).map (·.stages) =
      (m.get id).map (·.stages) := by
  cases h : m.get id with
  | none => rw [updateSessionStatus_absent m id status err errD t h, h]
  | some s =>
      rw [get_updateSessionStatus_some m id status err errD t s h]
      cases err <;> simp [h]

theorem updateSessionStatus_finalVideoPath (m : SessionManager) (id : String)
    (status : SessionStatus) (err errD : Option String) (t : Nat) :
    ((m.updateSessionStatus id status err errD t).get id).map (·.finalVideoPath) =
      (m.get id).map (·.finalVideoPath) := by
  cases h : m.get id with
  | none => rw [updateSessionStatus_absent m id status err errD t h, h]
  | some s =>
      rw [get_updateSessionStatus_some m id status err errD t s h]
      cases err <;> simp [h]

theorem updateSessionStatus_status_some (m : SessionManager) (id : String)
    (status : SessionStatus) (err errD : Option String) (t : Nat)
    (s : GenerationSession) (h : m.get id = some s) :
    ((m.updateSessionStatus id status err errD t).get id).map (·.status) =
      some status := by
  rw [get_updateSessionStatus_some m id status err errD t s h]
  cases err <;> rfl

theorem updateStageStatus_absent (m : SessionManager) (id : String)
    (stage : ProcessingStage) (status : StageState) (msg : Option String)
    (prog : Option Nat) (err : Option String) (t : Nat)
    (h : m.get id = none) :
    m.updateStageStatus id stage status msg prog err t = m := by
  unfold SessionManager.updateStageStatus
  rw [h]

theorem get_updateStageStatus_some (m : SessionManager) (id : String)
    (stage : ProcessingStage) (status : StageState) (msg : Option String)
    (prog : Option Nat) (err : Option String) (t : Nat)
    (s : GenerationSession) (h : m.get id = some s) :
    (m.updateStageStatus id stage status msg prog err t).get id =
      some (match s.stages.find? (fun x => x.stage == stage) with
        | none => s
        | some rec =>
            { s with
              stages := SessionManager.replaceStage stage
                (SessionManager.applyStageUpdate rec status msg prog err t).1 s.stages
              currentStage :=
                if (SessionManager.applyStageUpdate rec status msg prog err t).2 then
                  some stage
                else if (status = .completed ∨ status = .error) ∧
                    s.currentStage = some stage then none
                else s.currentStage
              updatedAt := t }) := by
  unfold SessionManager.updateStageStatus
  rw [h]
  cases hf : s.stages.find? (fun x => x.stage == stage) with
  | none => simpa [hf] using h
  | some rec =>
      rcases hap : SessionManager.applyStageUpdate rec status msg prog err t with ⟨upd, sp⟩
      simp [hf, hap, get_set_of_get m id _ s h]

theorem find?_stage_eq (l : List StageStatus) (stage : ProcessingStage)
    (rec : StageStatus) (h : l.find? (fun x => x.stage == stage) = some rec) :
    rec.stage = stage := by
  have := List.find?_some h
  simpa using this

theorem updateStageStatus_finalVideoPath (m : SessionManager) (id : String)
    (stage : ProcessingStage) (status : StageState) (msg : Option String)
    (prog : Option Nat) (err : Option String) (t : Nat) :
    ((m.updateStageStatus id stage status msg prog err t).get id).map (·.finalVideoPath) =
      (m.get id).map (·.finalVideoPath) := by
  cases h : m.get id with
  | none => rw [updateStageStatus_absent m id stage status msg prog err t h, h]
  | some s =>
      rw [get_updateStageStatus_some m id stage status msg prog err t s h]
      cases hf : s.stages.find? (fun x => x.stage == stage) <;> simp [hf, h]

theorem updateStageStatus_status (m : SessionManager) (id : String)
    (stage : ProcessingStage) (status : StageState) (msg : Option String)
    (prog : Option Nat) (err : Option String) (t : Nat) :
    ((m.updateStageStatus id stage status msg prog err t).get id).map (·.status) =
      (m.get id).map (·.status) := by
  cases h : m.get id with
  | none => rw [updateStageStatus_absent m id stage status msg prog err t h, h]
  | some s =>
      rw [get_updateStageStatus_some m id stage status msg prog err t s h]
      cases hf : s.stages.find? (fun x => x.stage == stage) <;> simp [hf, h]

theorem updateStageStatus_isSome (m : SessionManager) (id : String)
    (stage : ProcessingStage) (status : StageState) (msg : Option String)
    (prog : Option Nat) (err : Option String) (t : Nat) :
    ((m.updateStageStatus id stage status msg prog err t).get id).isSome =
      ((m.get id)).isSome := by
  cases h : m.get id with
  | none => rw [updateStageStatus_absent m id stage status msg prog err t h, h]
  | some s =>
      rw [get_updateStageStatus_some m id stage status msg prog err t s h]
      rfl

theorem updateStageStatus_mergeRecord_other (m : SessionManager) (id : String)
    (stage : ProcessingStage) (status : StageState) (msg : Option String)
    (prog : Option Nat) (err : Option String) (t : Nat) (hst : stage ≠ .merge) :
    ((m.updateStageStatus id stage status msg prog err t).get id).map mergeRecordOf =
      (m.get id).map mergeRecordOf := by
  cases h : m.get id with
  | none => rw [updateStageStatus_absent m id stage status msg prog err t h, h]
  | some s =>
      rw [get_updateStageStatus_some m id stage status msg prog err t s h]
      cases hf : s.stages.find? (fun x => x.stage == stage) with
      | none => simp [hf, h]
      | some rec =>
          have hu : ((SessionManager.applyStageUpdate rec status msg prog err t).1).stage
              = stage := by
            rw [applyStageUpdate_stage]
            exact find?_stage_eq s.stages stage rec hf
          simp only [hf, Option.map_some', h]
          unfold mergeRecordOf
          rw [find?_replaceStage_other s.stages stage .merge _ hu (Ne.symm hst)]

theorem updateStageStatus_mergeRecord_self (m : SessionManager) (id : String)
    (status : StageState) (msg : Option String)
    (prog : Option Nat) (err : Option String) (t : Nat)
    (s : GenerationSession) (rec : StageStatus)
    (h : m.get id = some s) (hrec : mergeRecordOf s = some rec) :
    ((m.updateStageStatus id .merge status msg prog err t).get id).map mergeRecordOf =
      some (some (SessionManager.applyStageUpdate rec status msg prog err t).1) := by
  rw [get_updateStageStatus_some m id .merge status msg prog err t s h]
  have hrec' : s.stages.find? (fun x => x.stage == ProcessingStage.merge) = some rec := hrec
  have hu : ((SessionManager.applyStageUpdate rec status msg prog err t).1).stage
      = ProcessingStage.merge := by
    rw [applyStageUpdate_stage]
    exact find?_stage_eq s.stages .merge rec hrec'
  simp only [hrec', Option.map_some']
  unfold mergeRecordOf
  rw [find?_replaceStage_self s.stages .merge _ hu rec hrec']

theorem stageRecord_updateStageStatus_self (m : SessionManager) (id : String)
    (stage : ProcessingStage) (status : StageState) (msg : Option String)
    (prog : Option Nat) (err : Option String) (t : Nat) :
    stageRecord (m.updateStageStatus id stage status msg prog err t) id stage =
      (stageRecord m id stage).map
        (fun rec => (SessionManager.applyStageUpdate rec status msg prog err t).1) := by
  cases h : m.get id with
  | none =>
      rw [updateStageStatus_absent m id stage status msg prog err t h]
      simp [stageRecord, h]
  | some s =>
      cases hf : s.stages.find? (fun x => x.stage == stage) with
      | none =>
          rw [stageRecord, get_updateStageStatus_some m id stage status msg prog err t s h]
          simp [stageRecord, h, hf]
      | some rec =>
          have hu : ((SessionManager.applyStageUpdate rec status msg prog err t).1).stage
              = stage := by
            rw [applyStageUpdate_stage]
            exact find?_stage_eq s.stages stage rec hf
          rw [stageRecord, get_updateStageStatus_some m id stage status msg prog err t s h]
          simp only [hf, Option.some_bind]
          rw [find?_replaceStage_self s.stages stage _ hu rec hf]
          simp [stageRecord, h, hf]

theorem updateSessionFinalVideo_absent (m : SessionManager) (id : String)
    (p : String) (t : Nat) (h : m.get id = none) :
    m.updateSessionFinalVideo id p t = m := by
  unfold SessionManager.updateSessionFinalVideo
  rw [h]

theorem get_updateSessionFinalVideo_some (m : SessionManager) (id : String)
    (p : String) (t : Nat) (s : GenerationSession) (h : m.get id = some s) :
    (m.updateSessionFinalVideo id p t).get id =
      some { s with finalVideoPath := some p, updatedAt := t } := by
  unfold SessionManager.updateSessionFinalVideo
  rw [h]
  exact get_set_of_get m id _ s h

/-! ## Claim C9 -/

/-- C9: the stage list is fixed at session creation: `[prompts, images,
videos, merge]` when neither voiceover nor music is requested and
`[prompts, images, videos, audio, merge]` when either flag is true; the
audio stage is present iff a flag is true, merge is always last, and every
stage starts `pending`. -/
theorem c9_stage_list_fixed_at_creation (m : SessionManager)
    (req : GenerationRequest) (img sid : String) (t : Nat) :
    ((req.includeVoiceover = false ∧ req.includeMusic = false) →
      ((m.createSession req img sid t).1).stages =
        [{ stage := .prompts, status := .pending },
         { stage := .images, status := .pending },
         { stage := .videos, status := .pending },
         { stage := .merge, status := .pending }]) ∧
    ((req.includeVoiceover = true ∨ req.includeMusic = true) →
      ((m.createSession req img sid t).1).stages =
        [{ stage := .prompts, status := .pending },
         { stage := .images, status := .pending },
         { stage := .videos, status := .pending },
         { stage := .audio, status := .pending },
         { stage := .merge, status := .pending }]) ∧
    (∀ st ∈ ((m.createSession req img sid t).1).stages, st.status = .pending) ∧
    (((m.createSession req img sid t).1).stages.getLast?.map StageStatus.stage
      = some .merge) ∧
    ((ProcessingStage.audio ∈
        ((m.createSession req img sid t).1).stages.map StageStatus.stage) ↔
      (req.includeVoiceover = true ∨ req.includeMusic = true)) := by
  obtain ⟨sc, d, vo, mu, io⟩ := req
  cases vo <;> cases mu <;>
    simp [SessionManager.createSession, List.getLast?]

/-- witness for C9 at a concrete request with music requested -/
theorem c9_stage_list_fixed_at_creation_witness :
    ((SessionManager.empty.createSession
      { sceneCount := 2, description := "d", includeVoiceover := false,
        includeMusic := true } "img" "s" 0).1).stages =
      [{ stage := .prompts, status := .pending },
       { stage := .images, status := .pending },
       { stage := .videos, status := .pending },
       { stage := .audio, status := .pending },
       { stage := .merge, status := .pending }] :=
  (c9_stage_list_fixed_at_creation SessionManager.empty
    { sceneCount := 2, description := "d", includeVoiceover := false,
      includeMusic := true } "img" "s" 0).2.1 (Or.inr rfl)

/-! ## Claim C10 -/

/-- C10: for a session id not present in the store, `updateSessionStatus`,
`updateStageStatus` and `updateSessionFinalVideo` return without modifying
anything, `getSession` returns absent, and `getSessionProgress` returns
progress 0 with no current stage. -/
theorem c10_absent_session_noops (m : SessionManager) (id : String)
    (h : m.get id = none)
    (status : SessionStatus) (err errD : Option String)
    (stage : ProcessingStage) (sstatus : StageState) (msg : Option String)
    (prog : Option Nat) (serr : Option String) (vp : String) (t : Nat) :
    m.updateSessionStatus id status err errD t = m ∧
    m.updateStageStatus id stage sstatus msg prog serr t = m ∧
    m.updateSessionFinalVideo id vp t = m ∧
    m.get id = none ∧
    m.getSessionProgress id = { progress := 0, currentStage := none } := by
  refine ⟨updateSessionStatus_absent m id status err errD t h,
    updateStageStatus_absent m id stage sstatus msg prog serr t h,
    updateSessionFinalVideo_absent m id vp t h, h, ?_⟩
  unfold SessionManager.getSessionProgress
  rw [h]

/-- witness for C10: a store holding session "a", queried at id "b" -/
theorem c10_absent_session_noops_witness :
    ((SessionManager.empty.createSession
        { sceneCount := 1, description := "d", includeVoiceover := false,
          includeMusic := false } "img" "a" 0).2).getSessionProgress "b" =
      { progress := 0, currentStage := none } :=
  (c10_absent_session_noops
    (SessionManager.empty.createSession
      { sceneCount := 1, description := "d", includeVoiceover := false,
        includeMusic := false } "img" "a" 0).2
    "b" (by decide) .failed none none .merge .completed none none none "v" 5).2.2.2.2

/-! ## Claim C5 -/

/-- C5 counterexample: `endTime` is NOT set exactly once over a stage's
lifetime — `updateStageStatus` overwrites it on every `completed`/`error`
write (there is no absence guard, unlike `startTime`): two consecutive
`completed` updates at times 1 and 2 move `endTime` from 1 to 2. -/
theorem c5_counterexample :
    (stageRecord
        (((SessionManager.empty.createSession
            { sceneCount := 1, description := "d", includeVoiceover := false,
              includeMusic := false } "img" "s1" 0).2).updateStageStatus
          "s1" .prompts .completed none none none 1) "s1" .prompts).map
      StageStatus.endTime = some (some 1) ∧
    (stageRecord
        ((((SessionManager.empty.createSession
            { sceneCount := 1, description := "d", includeVoiceover := false,
              includeMusic := false } "img" "s1" 0).2).updateStageStatus
          "s1" .prompts .completed none none none 1).updateStageStatus
          "s1" .prompts .completed none none none 2) "s1" .prompts).map
      StageStatus.endTime = some (some 2) := by
  constructor <;> decide

/-- C5 amended: `startTime` is set at most once — the first `processing`
update sets it and every later update (any status, any timestamp) leaves it
unchanged; in particular two consecutive `processing` updates leave
`startTime` as the first one set it.  `endTime`, by contrast, is overwritten
by every `completed`/`error` update (it equals the timestamp of the most
recent such call), rather than being set exactly once. -/
theorem c5_stage_timestamp_discipline (m : SessionManager) (id : String)
    (stage : ProcessingStage) :
    (∀ (msg1 msg2 : Option String) (p1 p2 : Option Nat) (e1 e2 : Option String)
        (t1 t2 : Nat),
      (stageRecord ((m.updateStageStatus id stage .processing msg1 p1 e1 t1).updateStageStatus
          id stage .processing msg2 p2 e2 t2) id stage).map StageStatus.startTime =
        (stageRecord (m.updateStageStatus id stage .processing msg1 p1 e1 t1)
          id stage).map StageStatus.startTime) ∧
    (∀ (status : StageState) (msg : Option String) (p : Option Nat)
        (e : Option String) (t t0 : Nat),
      (stageRecord m id stage).map StageStatus.startTime = some (some t0) →
      (stageRecord (m.updateStageStatus id stage status msg p e t) id stage).map
        StageStatus.startTime = some (some t0)) ∧
    (∀ (status : StageState) (msg : Option String) (p : Option Nat)
        (e : Option String) (t : Nat),
      status = .completed ∨ status = .error →
      (stageRecord (m.updateStageStatus id stage status msg p e t) id stage).map
        StageStatus.endTime =
        (stageRecord m id stage).map (fun _ => some t)) := by
  refine ⟨?_, ?_, ?_⟩
  · intro msg1 msg2 p1 p2 e1 e2 t1 t2
    rw [stageRecord_updateStageStatus_self, stageRecord_updateStageStatus_self]
    cases hrec : stageRecord m id stage with
    | none => rfl
    | some rec =>
        simp only [Option.map_some']
        congr 1
        rcases hst : rec.startTime with _ | t0
        · have h1 : ((SessionManager.applyStageUpdate rec .processing msg1 p1 e1 t1).1).startTime
              = some t1 := by
            rw [applyStageUpdate_processing_startTime, hst]
          exact (applyStageUpdate_startTime_some _ _ msg2 p2 e2 t2 t1 h1).trans h1.symm
        · have h1 : ((SessionManager.applyStageUpdate rec .processing msg1 p1 e1 t1).1).startTime
              = some t0 := by
            rw [applyStageUpdate_processing_startTime, hst]
          exact (applyStageUpdate_startTime_some _ _ msg2 p2 e2 t2 t0 h1).trans h1.symm
  · intro status msg p e t t0 h
    rw [stageRecord_updateStageStatus_self]
    cases hrec : stageRecord m id stage with
    | none => rw [hrec] at h; exact absurd h (by simp)
    | some rec =>
        rw [hrec] at h
        simp only [Option.map_some'] at h ⊢
        rw [applyStageUpdate_startTime_some _ status msg p e t t0 (by simpa using h)]
  · intro status msg p e t h
    rw [stageRecord_updateStageStatus_self]
    cases hrec : stageRecord m id stage with
    | none => rfl
    | some rec =>
        simp only [Option.map_some']
        rw [applyStageUpdate_endTime_done _ status msg p e t h]

/-- witness for C5's amended theorem: two consecutive `processing` writes on
a fresh session leave `startTime` at the time of the first write -/
theorem c5_stage_timestamp_discipline_witness :
    (stageRecord
        ((((SessionManager.empty.createSession
            { sceneCount := 1, description := "d", includeVoiceover := false,
              includeMusic := false } "img" "s1" 0).2).updateStageStatus
          "s1" .prompts .processing none none none 1).updateStageStatus
          "s1" .prompts .processing none none none 2) "s1" .prompts).map
      StageStatus.startTime =
      (stageRecord
        (((SessionManager.empty.createSession
            { sceneCount := 1, description := "d", includeVoiceover := false,
              includeMusic := false } "img" "s1" 0).2).updateStageStatus
          "s1" .prompts .processing none none none 1) "s1" .prompts).map
      StageStatus.startTime :=
  ((c5_stage_timestamp_discipline
    (SessionManager.empty.createSession
      { sceneCount := 1, description := "d", includeVoiceover := false,
        includeMusic := false } "img" "s1" 0).2 "s1" .prompts).1
    none none none none none none 1 2)

/-! ## Claim C1 -/

theorem generateSceneImagesAux_get (imagesDir sid : String)
    (opts : ImageGenerationOptions) (orig : String) :
    ∀ (prompts : List ScenePrompts) (prev : String) (i j : Nat)
      (h : j < prompts.length),
      (generateSceneImagesAux imagesDir sid opts orig prompts prev i).1.get? j =
        some (sceneImageOutputPath imagesDir sid (i + j + 1)) ∧
      (generateSceneImagesAux imagesDir sid opts orig prompts prev i).2.get? j =
        some { sceneNumber := i + j + 1
               prompt := (prompts.get ⟨j, h⟩).imagePrompt
               referenceImagePath :=
                 if j = 0 then prev else sceneImageOutputPath imagesDir sid (i + j)
               imageInput := referenceInputs opts
                 (if j = 0 then prev else sceneImageOutputPath imagesDir sid (i + j))
                 orig } := by
  intro prompts
  induction prompts with
  | nil => intro prev i j h; exact absurd h (by simp)
  | cons scene rest ih =>
      intro prev i j h
      simp only [generateSceneImagesAux]
      cases j with
      | zero => exact ⟨rfl, rfl⟩
      | succ j =>
          have hj : j < rest.length := by simpa using h
          have htail := ih (sceneImageOutputPath imagesDir sid (i + 1)) (i + 1) j hj
          have harith : i + 1 + j = i + (j + 1) := by omega
          refine ⟨?_, ?_⟩
          · rw [List.get?_cons_succ, htail.1, harith]
          · rw [List.get?_cons_succ, htail.2]
            rcases Nat.eq_zero_or_pos j with hj0 | hjpos
            · subst hj0
              simp [harith]
            · have hjne : j ≠ 0 := Nat.pos_iff_ne_zero.mp hjpos
              simp [hjne, harith]

/-- C1: the rolling-reference chain of `generateSceneImages`: for a non-empty
prompt list of length N, the call for scene 1 uses the original uploaded
character image as its reference input; the call for scene k (1 < k ≤ N)
uses exactly the image path produced for scene k−1 as its reference input;
the model's reference-image inputs are that rolling reference, with the
original image added as a second anchor exactly per `referenceInputs`
(nano-banana with `includeOriginalAnchor` set); and the N generated paths
are returned in scene order. -/
theorem c1_rolling_reference_chain (imagesDir : String)
    (scenePrompts : List ScenePrompts) (original sid : String)
    (opts : ImageGenerationOptions) (hne : scenePrompts ≠ []) :
    (generateSceneImages imagesDir scenePrompts original sid opts).1.length =
      scenePrompts.length ∧
    (∀ j, j < scenePrompts.length →
      (generateSceneImages imagesDir scenePrompts original sid opts).1.get? j =
        some (sceneImageOutputPath imagesDir sid (j + 1))) ∧
    (((generateSceneImages imagesDir scenePrompts original sid opts).2.get? 0).map
      ImageGenCall.referenceImagePath = some original) ∧
    (∀ k, 0 < k → k < scenePrompts.length →
      ((generateSceneImages imagesDir scenePrompts original sid opts).2.get? k).map
        ImageGenCall.referenceImagePath =
        (generateSceneImages imagesDir scenePrompts original sid opts).1.get? (k - 1)) ∧
    (∀ j, j < scenePrompts.length →
      ((generateSceneImages imagesDir scenePrompts original sid opts).2.get? j).map
        ImageGenCall.imageInput =
        ((generateSceneImages imagesDir scenePrompts original sid opts).2.get? j).map
          (fun c => referenceInputs opts c.referenceImagePath original)) ∧
    (∀ j, j < scenePrompts.length →
      ((generateSceneImages imagesDir scenePrompts original sid opts).2.get? j).map
        ImageGenCall.sceneNumber = some (j + 1)) := by
  have hlen : ∀ (prompts : List ScenePrompts) (prev : String) (i : Nat),
      (generateSceneImagesAux imagesDir sid opts original prompts prev i).1.length
        = prompts.length := by
    intro prompts
    induction prompts with
    | nil => intro prev i; rfl
    | cons scene rest ih =>
        intro prev i
        simp only [generateSceneImagesAux, List.length_cons, ih]
  have hget := generateSceneImagesAux_get imagesDir sid opts original scenePrompts
    original 0
  refine ⟨hlen scenePrompts original 0, ?_, ?_, ?_, ?_, ?_⟩
  · intro j hj
    have hp := (hget j hj).1
    have : 0 + j + 1 = j + 1 := by omega
    rw [this] at hp
    exact hp
  · have h0 : 0 < scenePrompts.length := List.length_pos.mpr hne
    have hc := (hget 0 h0).2
    rw [generateSceneImages, hc]
    rfl
  · intro k hk0 hk
    have hc := (hget k hk).2
    have hp := (hget (k - 1) (by omega)).1
    rw [generateSceneImages, hc, hp]
    have hkne : k ≠ 0 := Nat.pos_iff_ne_zero.mp hk0
    simp only [if_neg hkne, Option.map_some']
    have : 0 + (k - 1) + 1 = 0 + k := by omega
    rw [this]
  · intro j hj
    have hc := (hget j hj).2
    rw [generateSceneImages, hc]
    rfl
  · intro j hj
    have hc := (hget j hj).2
    rw [generateSceneImages, hc]
    simp only [Option.map_some']
    have : 0 + j + 1 = j + 1 := by omega
    rw [this]

/-- witness for C1 on a concrete two-scene run with nano-banana and the
original anchor enabled: scene 2's reference is scene 1's output path -/
theorem c1_rolling_reference_chain_witness :
    ((generateSceneImages "images"
        [{ sceneNumber := 1, imagePrompt := "p1", videoPrompt := "v1" },
         { sceneNumber := 2, imagePrompt := "p2", videoPrompt := "v2" }]
        "uploads/char.png" "sess"
        { provider := .nanoBanana, includeOriginalAnchor := true }).2.get? 1).map
      ImageGenCall.referenceImagePath =
      (generateSceneImages "images"
        [{ sceneNumber := 1, imagePrompt := "p1", videoPrompt := "v1" },
         { sceneNumber := 2, imagePrompt := "p2", videoPrompt := "v2" }]
        "uploads/char.png" "sess"
        { provider := .nanoBanana, includeOriginalAnchor := true }).1.get? 0 :=
  (c1_rolling_reference_chain "images"
    [{ sceneNumber := 1, imagePrompt := "p1", videoPrompt := "v1" },
     { sceneNumber := 2, imagePrompt := "p2", videoPrompt := "v2" }]
    "uploads/char.png" "sess"
    { provider := .nanoBanana, includeOriginalAnchor := true }
    (by decide)).2.2.2.1 1 (by decide) (by decide)

/-! ## Retry lemmas and claims C3, C4 -/

theorem shouldRetry_not_retryable (e : AppErrorModel) (a m : Nat)
    (h : e.retryable = false) : shouldRetry e a m = false := by
  unfold shouldRetry
  split_ifs <;> simp_all

theorem shouldRetry_validation (e : AppErrorModel) (a m : Nat)
    (h : e.cls = .validationError) : shouldRetry e a m = false := by
  unfold shouldRetry
  split_ifs <;> simp_all

theorem shouldRetry_authentication (e : AppErrorModel) (a m : Nat)
    (h : e.cls = .authenticationError) : shouldRetry e a m = false := by
  unfold shouldRetry
  split_ifs <;> simp_all

theorem withRetryGo_succ {E A : Type} (op : Nat → Except E A) (isR : E → Bool)
    (attempt fuel : Nat) :
    withRetryGo op isR attempt (fuel + 1) =
      match op attempt with
      | .ok a => (.ok a, 1)
      | .error e =>
          if isR e && fuel != 0 then
            ((withRetryGo op isR (attempt + 1) fuel).1,
             (withRetryGo op isR (attempt + 1) fuel).2 + 1)
          else (.error (some e), 1) := rfl

theorem executeWithRetryGo_succ {A : Type} (op : Nat → Except ThrownError A)
    (stage : Option String) (maxRetries attempt fuel : Nat) :
    executeWithRetryGo op stage maxRetries attempt (fuel + 1) =
      match op attempt with
      | .ok a => (.ok a, 1)
      | .error err =>
          if shouldRetry (toAppError err none stage) attempt maxRetries then
            ((executeWithRetryGo op stage maxRetries (attempt + 1) fuel).1,
             (executeWithRetryGo op stage maxRetries (attempt + 1) fuel).2 + 1)
          else (.error (some (toAppError err none stage)), 1) := rfl

theorem executeWithRetry_no_retry_first {A : Type} (op : Nat → Except ThrownError A)
    (stg : Option String) (maxRetries : Nat) (hm : 1 ≤ maxRetries)
    (t : ThrownError) (hop : op 1 = .error t)
    (hnr : shouldRetry (toAppError t none stg) 1 maxRetries = false) :
    executeWithRetry op stg maxRetries = (.error (some (toAppError t none stg)), 1) := by
  obtain ⟨f, rfl⟩ : ∃ f, maxRetries = f + 1 := ⟨maxRetries - 1, by omega⟩
  unfold executeWithRetry
  rw [executeWithRetryGo_succ, hop]
  simp only [hnr, if_false, Bool.false_eq_true]

/-- C3: with a policy of maxAttempts = 3 and an operation that fails with a
policy-retryable error on attempts 1 and 2 and succeeds on attempt 3,
`withRetry` invokes the operation exactly 3 times and returns the successful
result; and an operation failing with an `AuthenticationError`-classified
error is invoked exactly once by `executeWithRetry`, regardless of the
attempt budget. -/
theorem c3_retry_invocation_counts :
    (∀ (E A : Type) (opts : RetryOptions E) (op : Nat → Except E A)
        (e1 e2 : E) (a : A),
      opts.maxAttempts = 3 →
      op 1 = .error e1 → op 2 = .error e2 → op 3 = .ok a →
      opts.isRetryable e1 = true → opts.isRetryable e2 = true →
      withRetry op opts = (.ok a, 3)) ∧
    (∀ (A : Type) (op : Nat → Except ThrownError A) (stg : Option String)
        (maxRetries : Nat) (eA : AppErrorModel),
      eA.cls = .authenticationError → 1 ≤ maxRetries →
      op 1 = .error (.app eA) →
      executeWithRetry op stg maxRetries = (.error (some eA), 1)) := by
  constructor
  · intro E A opts op e1 e2 a hmax h1 h2 h3 hr1 hr2
    unfold withRetry
    rw [hmax]
    rw [show (3 : Nat) = 2 + 1 from rfl, withRetryGo_succ, h1]
    simp only [hr1, Bool.true_and, if_pos]
    rw [show (2 : Nat) = 1 + 1 from rfl, withRetryGo_succ, h2]
    simp only [hr2, Bool.true_and, if_pos]
    rw [show (1 : Nat) = 0 + 1 from rfl, withRetryGo_succ, h3]
    simp
  · intro A op stg maxRetries eA hcls hm hop
    have := executeWithRetry_no_retry_first op stg maxRetries hm (.app eA) hop
      (shouldRetry_authentication eA 1 maxRetries hcls)
    simpa [toAppError] using this

/-- witness for C3: a concrete fail-fail-succeed run under an all-retryable
policy, and a concrete authentication failure -/
theorem c3_retry_invocation_counts_witness :
    withRetry (fun k => if k < 3 then .error 0 else .ok 7)
      { maxAttempts := 3, retryableErrors := some (fun _ => true) } =
      (.ok 7, 3) ∧
    executeWithRetry (fun _ => (.error (.app (mkAuthenticationError "OpenAI")) :
        Except ThrownError Nat)) (some "prompts") 3 =
      (.error (some (mkAuthenticationError "OpenAI")), 1) :=
  ⟨c3_retry_invocation_counts.1 Nat Nat
      { maxAttempts := 3, retryableErrors := some (fun _ => true) }
      (fun k => if k < 3 then .error 0 else .ok 7) 0 0 7
      rfl rfl rfl rfl rfl rfl,
   c3_retry_invocation_counts.2 Nat
      (fun _ => .error (.app (mkAuthenticationError "OpenAI")))
      (some "prompts") 3 (mkAuthenticationError "OpenAI") rfl (by omega) rfl⟩

/-- C4 counterexample: the claim fails on `withRetry` — it consults only the
policy's `retryableErrors` predicate, so a policy whose predicate returns
true for a `ValidationError` makes `withRetry` retry it: with maxAttempts = 3
the operation is invoked 3 times, not once. -/
theorem c4_counterexample :
    withRetry (fun _ => (.error (mkValidationError "Invalid input") :
        Except AppErrorModel Nat))
      { maxAttempts := 3, retryableErrors := some (fun _ => true) } =
      (.error (some (mkValidationError "Invalid input")), 3) := rfl

/-- C4 amended: the hard no-retry rule for Validation- and
Authentication-class errors holds for the orchestrator's retry loop
(`executeWithRetry`, via `shouldRetry`): for every such error and every
attempt budget, the operation is invoked exactly once and the error is
surfaced immediately.  It does not hold for `withRetry`, which retries
whenever the policy's own `retryableErrors` predicate says so
(see the counterexample). -/
theorem c4_hard_no_retry_in_shouldRetry_executor {A : Type}
    (op : Nat → Except ThrownError A) (stg : Option String) (maxRetries : Nat)
    (e : AppErrorModel)
    (hcls : e.cls = .validationError ∨ e.cls = .authenticationError)
    (hm : 1 ≤ maxRetries) (hop : op 1 = .error (.app e)) :
    executeWithRetry op stg maxRetries = (.error (some e), 1) := by
  have hnr : shouldRetry e 1 maxRetries = false := by
    rcases hcls with h | h
    · exact shouldRetry_validation e 1 maxRetries h
    · exact shouldRetry_authentication e 1 maxRetries h
  have := executeWithRetry_no_retry_first op stg maxRetries hm (.app e) hop
    (by simpa [toAppError] using hnr)
  simpa [toAppError] using this

/-- witness for C4's amended theorem: a validation error is surfaced by
`executeWithRetry` after exactly one invocation even with budget 5 -/
theorem c4_hard_no_retry_witness :
    executeWithRetry (fun _ => (.error (.app (mkValidationError "bad")) :
        Except ThrownError Nat)) (some "prompts") 5 =
      (.error (some (mkValidationError "bad")), 1) :=
  c4_hard_no_retry_in_shouldRetry_executor
    (fun _ => .error (.app (mkValidationError "bad"))) (some "prompts") 5
    (mkValidationError "bad") (Or.inl rfl) (by omega) rfl

/-! ## Claim C7 -/

/-- C7: the classifier's output carries `retryable = false` whenever its
spec-taxonomy kind is Validation, Authentication, ResourceNotFound,
PermissionDenied, DiskFull, or the Unknown fallback, and `retryable = true`
whenever its kind is RateLimited (with the raw error's retry-after hint
preserved), ServiceUnavailable, or Timeout; the `ValidationError` and
`AuthenticationError` constructors themselves fix `retryable = false`. -/
theorem c7_classifier_retryable_tagging (e : RawErrorModel)
    (svc stg : Option String) :
    ((handleServiceError e svc stg).kind = .rateLimited →
      (handleServiceError e svc stg).retryable = true ∧
      (handleServiceError e svc stg).retryAfter = e.retryAfter) ∧
    ((handleServiceError e svc stg).kind = .serviceUnavailable →
      (handleServiceError e svc stg).retryable = true) ∧
    ((handleServiceError e svc stg).kind = .timeout →
      (handleServiceError e svc stg).retryable = true) ∧
    ((handleServiceError e svc stg).kind = .validation →
      (handleServiceError e svc stg).retryable = false) ∧
    ((handleServiceError e svc stg).kind = .authentication →
      (handleServiceError e svc stg).retryable = false) ∧
    ((handleServiceError e svc stg).kind = .resourceNotFound →
      (handleServiceError e svc stg).retryable = false) ∧
    ((handleServiceError e svc stg).kind = .permissionDenied →
      (handleServiceError e svc stg).retryable = false) ∧
    ((handleServiceError e svc stg).kind = .diskFull →
      (handleServiceError e svc stg).retryable = false) ∧
    ((handleServiceError e svc stg).kind = .unknown →
      (handleServiceError e svc stg).retryable = false) ∧
    (∀ msg : String, (mkValidationError msg).retryable = false) ∧
    (∀ s : String, (mkAuthenticationError s).retryable = false) := by
  have key : ∀ c : AppErrorModel, c = handleServiceError e svc stg →
      (c.kind = .rateLimited → c.retryable = true ∧ c.retryAfter = e.retryAfter) ∧
      (c.kind = .serviceUnavailable → c.retryable = true) ∧
      (c.kind = .timeout → c.retryable = true) ∧
      (c.kind = .validation → c.retryable = false) ∧
      (c.kind = .authentication → c.retryable = false) ∧
      (c.kind = .resourceNotFound → c.retryable = false) ∧
      (c.kind = .permissionDenied → c.retryable = false) ∧
      (c.kind = .diskFull → c.retryable = false) ∧
      (c.kind = .unknown → c.retryable = false) := by
    intro c hc
    unfold handleServiceError at hc
    by_cases h1 : (e.code == some "insufficient_quota") = true
    · rw [if_pos h1] at hc; subst hc
      simp [AppErrorModel.kind, mkServiceUnavailableError]
    rw [if_neg h1] at hc
    by_cases h2 : (e.code == some "rate_limit_exceeded") = true
    · rw [if_pos h2] at hc; subst hc
      simp [AppErrorModel.kind, mkRateLimitError]
    rw [if_neg h2] at hc
    by_cases h3 : strContains e.message "prediction failed" = true
    · rw [if_pos h3] at hc; subst hc
      simp [AppErrorModel.kind, mkServiceUnavailableError]
    rw [if_neg h3] at hc
    by_cases h4 : strContains e.message "quota" = true
    · rw [if_pos h4] at hc; subst hc
      simp [AppErrorModel.kind, mkServiceUnavailableError]
    rw [if_neg h4] at hc
    by_cases h5 : (e.code == some "ENOTFOUND" || e.code == some "ECONNREFUSED") = true
    · rw [if_pos h5] at hc; subst hc
      simp [AppErrorModel.kind, mkServiceUnavailableError]
    rw [if_neg h5] at hc
    by_cases h6 : (e.code == some "ETIMEDOUT" || strContains e.message "timeout") = true
    · rw [if_pos h6] at hc; subst hc
      simp [AppErrorModel.kind, mkProcessingTimeoutError]
    rw [if_neg h6] at hc
    by_cases h7 : (strContains e.message "ffmpeg" || strContains e.message "ffprobe") = true
    · rw [if_pos h7] at hc; subst hc
      simp [AppErrorModel.kind]
    rw [if_neg h7] at hc
    by_cases h8 : (e.code == some "ENOENT") = true
    · rw [if_pos h8] at hc; subst hc
      simp [AppErrorModel.kind, mkResourceNotFoundError]
    rw [if_neg h8] at hc
    by_cases h9 : (e.code == some "EACCES" || e.code == some "EPERM") = true
    · rw [if_pos h9] at hc; subst hc
      simp [AppErrorModel.kind]
    rw [if_neg h9] at hc
    by_cases h10 : (e.code == some "ENOSPC") = true
    · rw [if_pos h10] at hc; subst hc
      simp [AppErrorModel.kind]
    rw [if_neg h10] at hc
    by_cases h11 : (strContains e.message "502" || strContains e.message "503" ||
        strContains e.message "504" || strContains e.message "temporary") = true
    · rw [if_pos h11] at hc; subst hc
      simp [AppErrorModel.kind]
    rw [if_neg h11] at hc
    subst hc
    simp [AppErrorModel.kind]
  have h := key (handleServiceError e svc stg) rfl
  exact ⟨h.1, h.2.1, h.2.2.1, h.2.2.2.1, h.2.2.2.2.1, h.2.2.2.2.2.1,
    h.2.2.2.2.2.2.1, h.2.2.2.2.2.2.2.1, h.2.2.2.2.2.2.2.2,
    fun msg => rfl, fun s => rfl⟩

/-- witness for C7: a concrete rate-limit error keeps its retry-after hint
and is retryable -/
theorem c7_classifier_retryable_tagging_witness :
    (handleServiceError
        { code := some "rate_limit_exceeded", message := "", retryAfter := some 7 }
        none none).retryable = true ∧
    (handleServiceError
        { code := some "rate_limit_exceeded", message := "", retryAfter := some 7 }
        none none).retryAfter = some 7 :=
  (c7_classifier_retryable_tagging
    { code := some "rate_limit_exceeded", message := "", retryAfter := some 7 }
    none none).1 (by decide)

/-! ## Claim C6 -/

set_option maxRecDepth 4000 in
theorem countMismatch_noTrigger :
    ∀ sc < 6, ∀ got < 11,
      strContainsAny (countMismatchMessage sc got) classifierTriggers = false := by
  decide

set_option maxRecDepth 4000 in
theorem badScene_noTrigger :
    ∀ n < 11, strContainsAny (badSceneMessage n) classifierTriggers = false := by
  decide

/-- a raw error with no `code` whose message matches none of the classifier's
patterns lands in the generic fallback branch: a plain `AppError`,
status 500, `retryable = false` -/
theorem handleServiceError_fallback (e : RawErrorModel) (svc stg : Option String)
    (hcode : e.code = none)
    (htrig : strContainsAny e.message classifierTriggers = false) :
    handleServiceError e svc stg =
      { cls := .appError,
        message := if e.message = "" then "An unexpected error occurred" else e.message,
        statusCode := 500, isOperational := true, retryable := false } := by
  have h9 : strContains e.message "prediction failed" = false ∧
      strContains e.message "quota" = false ∧
      strContains e.message "timeout" = false ∧
      strContains e.message "ffmpeg" = false ∧
      strContains e.message "ffprobe" = false ∧
      strContains e.message "502" = false ∧
      strContains e.message "503" = false ∧
      strContains e.message "504" = false ∧
      strContains e.message "temporary" = false := by
    simpa [strContainsAny, classifierTriggers] using htrig
  obtain ⟨t1, t2, t3, t4, t5, t6, t7, t8, t9⟩ := h9
  unfold handleServiceError
  simp [hcode, t1, t2, t3, t4, t5, t6, t7, t8, t9]

/-- C6 counterexample: a scene-count mismatch (2 scenes returned for
sceneCount = 3) makes `generatePrompts` throw a plain `Error`, and
`handleServiceError` classifies it as the generic fallback `AppError`
(status 500, Unknown kind) — NOT as a `ValidationError` (status 400,
Validation class) as the claim states. -/
theorem c6_counterexample :
    validateGeneratedPrompts 3 false false
      { scenePrompts :=
          [{ sceneNumber := 1, imagePrompt := "a", videoPrompt := "b" },
           { sceneNumber := 2, imagePrompt := "c", videoPrompt := "d" }] } =
      .error { message := countMismatchMessage 3 2 } ∧
    (handleServiceError { message := countMismatchMessage 3 2 } none
      (some "prompts")).cls ≠ .validationError ∧
    (handleServiceError { message := countMismatchMessage 3 2 } none
      (some "prompts")).cls = .appError ∧
    (handleServiceError { message := countMismatchMessage 3 2 } none
      (some "prompts")).kind = .unknown ∧
    (handleServiceError { message := countMismatchMessage 3 2 } none
      (some "prompts")).statusCode = 500 := by
  refine ⟨rfl, ?_, ?_, ?_, ?_⟩ <;> decide

/-- C6 amended: for every requested sceneCount in the documented 1–5 range,
if the prompt-generation result does not contain exactly sceneCount entries
or some entry has an empty image or video prompt (with the returned entry
count and scene numbers in a realistic 0–10 range, so that the digits cannot
accidentally match a classifier pattern such as "502"), the prompts stage
fails with an error that `handleServiceError` classifies as the generic
non-retryable fallback `AppError` (Unknown kind, status 500) — not
Validation class — which is fatal and never retried: `executeWithRetry`
invokes the operation exactly once and surfaces the classified error. -/
theorem c6_prompts_validation (sceneCount : Nat) (vo mu : Bool)
    (p : GeneratedPrompts)
    (hsc1 : 1 ≤ sceneCount) (hsc2 : sceneCount ≤ 5)
    (hlen : p.scenePrompts.length ≤ 10)
    (hnums : ∀ s ∈ p.scenePrompts, s.sceneNumber ≤ 10)
    (hbad : p.scenePrompts.length ≠ sceneCount ∨
      ∃ s ∈ p.scenePrompts, s.imagePrompt = "" ∨ s.videoPrompt = "") :
    ∃ e : RawErrorModel,
      validateGeneratedPrompts sceneCount vo mu p = .error e ∧
      (handleServiceError e none (some "prompts")).cls = .appError ∧
      (handleServiceError e none (some "prompts")).kind = .unknown ∧
      (handleServiceError e none (some "prompts")).retryable = false ∧
      (∀ (A : Type) (op : Nat → Except ThrownError A) (maxRetries : Nat),
        1 ≤ maxRetries → op 1 = .error (.raw e) →
        executeWithRetry op (some "prompts") maxRetries =
          (.error (some (handleServiceError e none (some "prompts"))), 1)) := by
  have main : ∀ e : RawErrorModel, e.code = none →
      strContainsAny e.message classifierTriggers = false →
      (handleServiceError e none (some "prompts")).cls = .appError ∧
      (handleServiceError e none (some "prompts")).kind = .unknown ∧
      (handleServiceError e none (some "prompts")).retryable = false ∧
      (∀ (A : Type) (op : Nat → Except ThrownError A) (maxRetries : Nat),
        1 ≤ maxRetries → op 1 = .error (.raw e) →
        executeWithRetry op (some "prompts") maxRetries =
          (.error (some (handleServiceError e none (some "prompts"))), 1)) := by
    intro e hcode htrig
    have hfb := handleServiceError_fallback e none (some "prompts") hcode htrig
    refine ⟨by rw [hfb], by rw [hfb]; rfl, by rw [hfb], ?_⟩
    intro A op maxRetries hm hop
    exact executeWithRetry_no_retry_first op (some "prompts") maxRetries hm
      (.raw e) hop
      (shouldRetry_not_retryable _ 1 maxRetries (by rw [toAppError, hfb]))
  by_cases hlc : p.scenePrompts.length = sceneCount
  · rcases hbad with hmis | ⟨s0pre, hs0mem, hs0bad⟩
    · exact absurd hlc hmis
    · have hfind : (p.scenePrompts.find?
          (fun s => s.imagePrompt == "" || s.videoPrompt == "")).isSome := by
        rw [List.find?_isSome]
        refine ⟨s0pre, hs0mem, ?_⟩
        rcases hs0bad with h | h <;> simp [h]
      obtain ⟨s0, hf⟩ := Option.isSome_iff_exists.mp hfind
      have hmem : s0 ∈ p.scenePrompts := List.mem_of_find?_eq_some hf
      have hnum : s0.sceneNumber ≤ 10 := hnums s0 hmem
      refine ⟨{ message := badSceneMessage s0.sceneNumber }, ?_, ?_⟩
      · unfold validateGeneratedPrompts
        rw [if_neg (by omega), hf]
      · exact main _ rfl
          (badScene_noTrigger s0.sceneNumber (by omega))
  · refine ⟨{ message := countMismatchMessage sceneCount p.scenePrompts.length },
      ?_, ?_⟩
    · unfold validateGeneratedPrompts
      rw [if_pos (by omega)]
    · exact main _ rfl
        (countMismatch_noTrigger sceneCount (by omega) p.scenePrompts.length
          (by omega))

/-- witness for C6's amended theorem: sceneCount 3 with a two-scene result -/
theorem c6_prompts_validation_witness :
    ∃ e : RawErrorModel,
      validateGeneratedPrompts 3 false false
        { scenePrompts :=
            [{ sceneNumber := 1, imagePrompt := "a", videoPrompt := "b" },
             { sceneNumber := 2, imagePrompt := "c", videoPrompt := "d" }] } =
        .error e ∧
      (handleServiceError e none (some "prompts")).cls = .appError ∧
      (handleServiceError e none (some "prompts")).kind = .unknown ∧
      (handleServiceError e none (some "prompts")).retryable = false ∧
      (∀ (A : Type) (op : Nat → Except ThrownError A) (maxRetries : Nat),
        1 ≤ maxRetries → op 1 = .error (.raw e) →
        executeWithRetry op (some "prompts") maxRetries =
          (.error (some (handleServiceError e none (some "prompts"))), 1)) :=
  c6_prompts_validation 3 false false
    { scenePrompts :=
        [{ sceneNumber := 1, imagePrompt := "a", videoPrompt := "b" },
         { sceneNumber := 2, imagePrompt := "c", videoPrompt := "d" }] }
    (by decide) (by decide) (by decide)
    (by intro s hs; fin_cases hs <;> decide)
    (Or.inl (by decide))

/-! ## Claim C8 -/

/-- C8: zero-audio merge passthrough: with video paths present but no
voiceover path and no (truthy) music path in the artifacts, the merge
performs the video-only concatenation and then copies it verbatim to the
final output; no audio-mixing pass is applied. -/
theorem c8_zero_audio_merge_passthrough (runsDir sid : String) (arts : Artifacts)
    (oracle : MergeOracles) (vs : List String)
    (hv : arts.videoPaths = some vs) (hne : vs ≠ [])
    (hnoaudio : arts.audioPaths = none ∨
      ∃ ap, arts.audioPaths = some ap ∧ ap.voiceoverPaths = none ∧
        strTruthy ap.musicPath = false)
    (hconcat : oracle.concatErr = none) :
    (mergeVideoContentCore runsDir sid arts oracle).1 =
      .ok ({ arts with finalVideoPath := some (finalVideoFile runsDir sid) },
           finalVideoFile runsDir sid) ∧
    (mergeVideoContentCore runsDir sid arts oracle).2 =
      [.concatenate vs (mergedScenesFile runsDir sid),
       .copy (mergedScenesFile runsDir sid) (finalVideoFile runsDir sid)] ∧
    (∀ a ∈ (mergeVideoContentCore runsDir sid arts oracle).2, a.isMix = false) := by
  have hlen : ¬ vs.length = 0 := by simpa [List.length_eq_zero] using hne
  rcases hnoaudio with hna | ⟨ap, hap, hvo, hmu⟩
  · unfold mergeVideoContentCore
    rw [hv]
    simp [hlen, hconcat, hna, finalVideoFile, mergedScenesFile, MergeAction.isMix]
  · unfold mergeVideoContentCore
    rw [hv]
    simp [hlen, hconcat, hap, hvo, hmu, finalVideoFile, mergedScenesFile,
      MergeAction.isMix]

/-- witness for C8: one video, artifacts with an empty `audioPaths` object
(the shape the audio stage writes when music generation is skipped) -/
theorem c8_zero_audio_merge_passthrough_witness :
    (mergeVideoContentCore "runs" "s"
        { videoPaths := some ["v1.mp4"], audioPaths := some {} } {}).2 =
      [.concatenate ["v1.mp4"] (mergedScenesFile "runs" "s"),
       .copy (mergedScenesFile "runs" "s") (finalVideoFile "runs" "s")] :=
  (c8_zero_audio_merge_passthrough "runs" "s"
    { videoPaths := some ["v1.mp4"], audioPaths := some {} } {} ["v1.mp4"]
    rfl (by decide) (Or.inr ⟨{}, rfl, rfl, rfl⟩) rfl).2.1

/-! ## Claim C2: pipeline invariants -/

theorem mgrMergeSafe_congr (m m' : SessionManager) (sid : String)
    (hmr : (m'.get sid).map mergeRecordOf = (m.get sid).map mergeRecordOf)
    (hfv : (m'.get sid).map GenerationSession.finalVideoPath =
      (m.get sid).map GenerationSession.finalVideoPath)
    (h : mgrMergeSafe m sid) : mgrMergeSafe m' sid := by
  obtain ⟨s, rec, hget, hrec, hne, hfvn⟩ := h
  rw [hget] at hmr hfv
  obtain ⟨s', hget', hs'⟩ := Option.map_eq_some'.mp hmr
  rw [hget'] at hfv
  refine ⟨s', rec, hget', by rw [hs', hrec], hne, ?_⟩
  have : s'.finalVideoPath = s.finalVideoPath := by simpa using hfv
  rw [this, hfvn]

theorem mgrMergeDone_congr (m m' : SessionManager) (sid runsDir : String)
    (hmr : (m'.get sid).map mergeRecordOf = (m.get sid).map mergeRecordOf)
    (hfv : (m'.get sid).map GenerationSession.finalVideoPath =
      (m.get sid).map GenerationSession.finalVideoPath)
    (h : mgrMergeDone m sid runsDir) : mgrMergeDone m' sid runsDir := by
  obtain ⟨s, rec, hget, hrec, hcomp, hfvp⟩ := h
  rw [hget] at hmr hfv
  obtain ⟨s', hget', hs'⟩ := Option.map_eq_some'.mp hmr
  rw [hget'] at hfv
  refine ⟨s', rec, hget', by rw [hs', hrec], hcomp, ?_⟩
  have : s'.finalVideoPath = s.finalVideoPath := by simpa using hfv
  rw [this, hfvp]

theorem map_mergeRecordOf_of_map_stages (m m' : SessionManager) (sid : String)
    (h : (m'.get sid).map GenerationSession.stages =
      (m.get sid).map GenerationSession.stages) :
    (m'.get sid).map mergeRecordOf = (m.get sid).map mergeRecordOf := by
  cases hg : m.get sid with
  | none =>
      rw [hg] at h
      rcases hg' : m'.get sid with _ | s'
      · rfl
      · rw [hg'] at h; simp at h
  | some s =>
      rw [hg] at h
      obtain ⟨s', hg', hs'⟩ := Option.map_eq_some'.mp h
      rw [hg']
      simp [mergeRecordOf, hs']


theorem mgrMergeSafe_updateStageStatus_ne (m : SessionManager) (sid : String)
    (stage : ProcessingStage) (status : StageState) (msg : Option String)
    (prog : Option Nat) (err : Option String) (t : Nat) (hst : stage ≠ .merge)
    (h : mgrMergeSafe m sid) :
    mgrMergeSafe (m.updateStageStatus sid stage status msg prog err t) sid :=
  mgrMergeSafe_congr m _ sid
    (updateStageStatus_mergeRecord_other m sid stage status msg prog err t hst)
    (updateStageStatus_finalVideoPath m sid stage status msg prog err t) h

theorem mgrMergeSafe_updateStageStatus_merge (m : SessionManager) (sid : String)
    (status : StageState) (msg : Option String) (prog : Option Nat)
    (err : Option String) (t : Nat) (hstat : status ≠ .completed)
    (h : mgrMergeSafe m sid) :
    mgrMergeSafe (m.updateStageStatus sid .merge status msg prog err t) sid := by
  obtain ⟨s, rec, hget, hrec, hne, hfvn⟩ := h
  have hmr := updateStageStatus_mergeRecord_self m sid status msg prog err t s rec
    hget hrec
  have hfv := updateStageStatus_finalVideoPath m sid .merge status msg prog err t
  obtain ⟨s', hget', hs'⟩ := Option.map_eq_some'.mp hmr
  rw [hget', hget] at hfv
  refine ⟨s', _, hget', hs', ?_, ?_⟩
  · rw [applyStageUpdate_status]
    exact hstat
  · have : s'.finalVideoPath = s.finalVideoPath := by simpa using hfv
    rw [this, hfvn]

theorem mgrMergeSafe_updateSessionStatus (m : SessionManager) (sid : String)
    (status : SessionStatus) (err errD : Option String) (t : Nat)
    (h : mgrMergeSafe m sid) :
    mgrMergeSafe (m.updateSessionStatus sid status err errD t) sid :=
  mgrMergeSafe_congr m _ sid
    (map_mergeRecordOf_of_map_stages m _ sid
      (updateSessionStatus_stages m sid status err errD t))
    (updateSessionStatus_finalVideoPath m sid status err errD t) h

theorem mgrMergeDone_updateSessionStatus (m : SessionManager) (sid runsDir : String)
    (status : SessionStatus) (err errD : Option String) (t : Nat)
    (h : mgrMergeDone m sid runsDir) :
    mgrMergeDone (m.updateSessionStatus sid status err errD t) sid runsDir :=
  mgrMergeDone_congr m _ sid runsDir
    (map_mergeRecordOf_of_map_stages m _ sid
      (updateSessionStatus_stages m sid status err errD t))
    (updateSessionStatus_finalVideoPath m sid status err errD t) h

/-- a successful merge epilogue — `updateSessionFinalVideo` followed by
marking the merge stage `completed` — establishes `mgrMergeDone` -/
theorem mgrMergeDone_establish (m : SessionManager) (sid runsDir : String)
    (msg : Option String) (prog : Option Nat) (err : Option String)
    (t1 t2 : Nat) (h : mgrMergeSafe m sid) :
    mgrMergeDone
      ((m.updateSessionFinalVideo sid (finalVideoFile runsDir sid) t1).updateStageStatus
        sid .merge .completed msg prog err t2) sid runsDir := by
  obtain ⟨s, rec, hget, hrec, _, _⟩ := h
  have hget1 := get_updateSessionFinalVideo_some m sid (finalVideoFile runsDir sid) t1 s hget
  have hrec1 : mergeRecordOf ({ s with finalVideoPath := some (finalVideoFile runsDir sid), updatedAt := t1 } : GenerationSession) = some rec := hrec
  have hmr := updateStageStatus_mergeRecord_self _ sid .completed msg prog err t2 _ rec
    hget1 hrec1
  have hfv := updateStageStatus_finalVideoPath
    (m.updateSessionFinalVideo sid (finalVideoFile runsDir sid) t1) sid .merge
    .completed msg prog err t2
  rw [hget1] at hfv
  obtain ⟨s', hget', hs'⟩ := Option.map_eq_some'.mp hmr
  rw [hget'] at hfv
  refine ⟨s', _, hget', hs', applyStageUpdate_status rec .completed msg prog err t2, ?_⟩
  simpa using hfv

/-! ## Claim C2: stage-operation lemmas -/

theorem runSafe_stageUpdate_ne (st : RunState) (sid : String)
    (stage : ProcessingStage) (status : StageState) (msg : Option String)
    (prog : Option Nat) (err : Option String) (hst : stage ≠ .merge)
    (h : runSafe st sid) :
    runSafe (st.stageUpdate sid stage status msg prog err) sid :=
  ⟨mgrMergeSafe_updateStageStatus_ne st.mgr sid stage status msg prog err
    st.clock hst h.1, h.2⟩

theorem promptsStageOp_preserves (sid : String)
    (o : Nat → Except ThrownError GeneratedPrompts) (k : Nat) (st : RunState)
    (h : runSafe st sid) : runSafe ((promptsStageOp sid o k st).1) sid := by
  have h1 := runSafe_stageUpdate_ne st sid .prompts .processing
    (some "Generating scene prompts...") none none (by simp) h
  unfold promptsStageOp
  cases ho : o k with
  | ok p =>
      simp only [ho]
      exact runSafe_stageUpdate_ne _ sid .prompts .completed _ none none
        (by simp) ⟨h1.1, fun ap hap => by simp at hap⟩
  | error e =>
      simp only [ho]
      exact runSafe_stageUpdate_ne _ sid .prompts .error _ none _ (by simp) h1

theorem imagesStageOp_preserves (sid : String)
    (o : Nat → Except ThrownError (List String)) (k : Nat) (st : RunState)
    (h : runSafe st sid) : runSafe ((imagesStageOp sid o k st).1) sid := by
  have h1 := runSafe_stageUpdate_ne st sid .images .processing
    (some "Generating scene images...") none none (by simp) h
  unfold imagesStageOp
  cases hp : st.arts.prompts with
  | none =>
      simp only [hp]
      exact runSafe_stageUpdate_ne _ sid .images .error _ none _ (by simp) h1
  | some pr =>
      simp only [hp]
      cases ho : o k with
      | ok paths =>
          simp only [ho]
          exact runSafe_stageUpdate_ne _ sid .images .completed _ none none
            (by simp) ⟨h1.1, fun ap hap => h1.2 ap hap⟩
      | error e =>
          simp only [ho]
          exact runSafe_stageUpdate_ne _ sid .images .error _ none _ (by simp) h1

theorem videosStageOp_preserves (sid : String)
    (o : Nat → Except ThrownError (List String)) (k : Nat) (st : RunState)
    (h : runSafe st sid) : runSafe ((videosStageOp sid o k st).1) sid := by
  have h1 := runSafe_stageUpdate_ne st sid .videos .processing
    (some "Generating scene videos...") none none (by simp) h
  unfold videosStageOp
  by_cases hp : st.arts.prompts = none ∨ st.arts.imagePaths = none
  · rw [if_pos hp]
    exact runSafe_stageUpdate_ne _ sid .videos .error _ none _ (by simp) h1
  · rw [if_neg hp]
    cases ho : o k with
    | ok paths =>
        simp only [ho]
        exact runSafe_stageUpdate_ne _ sid .videos .completed _ none none
          (by simp) ⟨h1.1, fun ap hap => h1.2 ap hap⟩
    | error e =>
        simp only [ho]
        exact runSafe_stageUpdate_ne _ sid .videos .error _ none _ (by simp) h1

theorem audioStageOp_preserves (sid : String) (req : GenerationRequest)
    (o : Nat → Except ThrownError String) (k : Nat) (st : RunState)
    (h : runSafe st sid) : runSafe ((audioStageOp sid req o k st).1) sid := by
  have h1 := runSafe_stageUpdate_ne st sid .audio .processing
    (some "Generating audio content...") none none (by simp) h
  unfold audioStageOp
  cases hp : st.arts.prompts with
  | none =>
      simp only [hp]
      exact runSafe_stageUpdate_ne _ sid .audio .error _ none _ (by simp) h1
  | some pr =>
      simp only [hp]
      by_cases hm : (req.includeMusic && strTruthy pr.musicPrompt) = true
      · rw [if_pos hm]
        cases ho : o k with
        | ok mp =>
            simp only [ho]
            exact runSafe_stageUpdate_ne _ sid .audio .completed _ none none
              (by simp) ⟨h1.1, fun ap hap => by
                simp only [] at hap
                rw [← Option.some_inj.mp hap]⟩
        | error e =>
            simp only [ho]
            exact runSafe_stageUpdate_ne _ sid .audio .error _ none _ (by simp) h1
      · rw [if_neg hm]
        exact runSafe_stageUpdate_ne _ sid .audio .completed _ none none
          (by simp) ⟨h1.1, fun ap hap => by
            simp only [] at hap
            rw [← Option.some_inj.mp hap]⟩

/-- a successful merge core run emits the final-video path, and (absent a
voiceover artifact, which the pipeline never writes) one of its actions
actually wrote the final file -/
theorem mergeVideoContentCore_ok (runsDir sid : String) (arts : Artifacts)
    (oracle : MergeOracles) (a : Artifacts) (p : String)
    (hnv : artsNoVoiceover arts)
    (h : (mergeVideoContentCore runsDir sid arts oracle).1 = .ok (a, p)) :
    p = finalVideoFile runsDir sid ∧
    ∃ act ∈ (mergeVideoContentCore runsDir sid arts oracle).2,
      writesFinal runsDir sid act = true := by
  cases hv : arts.videoPaths with
  | none =>
      rw [show mergeVideoContentCore runsDir sid arts oracle =
        (.error { message := "No video paths found for merging" }, []) from by
          unfold mergeVideoContentCore; rw [hv]] at h
      simp at h
  | some vs =>
      by_cases hlen : vs.length = 0
      · rw [show mergeVideoContentCore runsDir sid arts oracle =
          (.error { message := "No video paths found for merging" }, []) from by
            unfold mergeVideoContentCore; rw [hv]; simp [hlen]] at h
        simp at h
      · cases hc : oracle.concatErr with
        | some e =>
            rw [show mergeVideoContentCore runsDir sid arts oracle =
              (.error e, [.concatenate vs (mergedScenesFile runsDir sid)]) from by
                unfold mergeVideoContentCore; rw [hv]
                simp [hlen, hc, mergedScenesFile]] at h
            simp at h
        | none =>
            cases ha : arts.audioPaths with
            | none =>
                have hcore : mergeVideoContentCore runsDir sid arts oracle =
                    (.ok ({ arts with finalVideoPath := some (finalVideoFile runsDir sid) },
                      finalVideoFile runsDir sid),
                     [.concatenate vs (mergedScenesFile runsDir sid),
                      .copy (mergedScenesFile runsDir sid) (finalVideoFile runsDir sid)]) := by
                  unfold mergeVideoContentCore; rw [hv]
                  simp [hlen, hc, ha, finalVideoFile, mergedScenesFile, hv]
                rw [hcore] at h
                simp only [Except.ok.injEq, Prod.mk.injEq] at h
                refine ⟨h.2.symm, ?_⟩
                rw [hcore]
                exact ⟨.copy (mergedScenesFile runsDir sid) (finalVideoFile runsDir sid),
                  by simp, by simp [writesFinal]⟩
            | some ap =>
                have hvo : ap.voiceoverPaths = none := hnv ap ha
                by_cases hmu : strTruthy ap.musicPath = true
                · cases hmp : ap.musicPath with
                  | none => rw [hmp] at hmu; simp [strTruthy] at hmu
                  | some mp =>
                      have hmpne : mp ≠ "" := by
                        rw [hmp] at hmu; simpa [strTruthy] using hmu
                      cases hmix : oracle.mixErr with
                      | some e =>
                          rw [show mergeVideoContentCore runsDir sid arts oracle =
                            (.error e,
                             [.concatenate vs (mergedScenesFile runsDir sid),
                              .mixAudio (mergedScenesFile runsDir sid) mp
                                (finalVideoFile runsDir sid)]) from by
                              unfold mergeVideoContentCore; rw [hv]
                              simp [hlen, hc, ha, hvo, hmp, hmpne, hmix,
                                finalVideoFile, mergedScenesFile, strTruthy]] at h
                          simp at h
                      | none =>
                          have hcore : mergeVideoContentCore runsDir sid arts oracle =
                              (.ok ({ arts with finalVideoPath := some (finalVideoFile runsDir sid) },
                                finalVideoFile runsDir sid),
                               [.concatenate vs (mergedScenesFile runsDir sid),
                                .mixAudio (mergedScenesFile runsDir sid) mp
                                  (finalVideoFile runsDir sid)]) := by
                            unfold mergeVideoContentCore; rw [hv]
                            simp [hlen, hc, ha, hvo, hmp, hmpne, hmix,
                              finalVideoFile, mergedScenesFile, strTruthy, hv]
                          rw [hcore] at h
                          simp only [Except.ok.injEq, Prod.mk.injEq] at h
                          refine ⟨h.2.symm, ?_⟩
                          rw [hcore]
                          exact ⟨.mixAudio (mergedScenesFile runsDir sid) mp
                            (finalVideoFile runsDir sid), by simp, by simp [writesFinal]⟩
                · have hcore : mergeVideoContentCore runsDir sid arts oracle =
                      (.ok ({ arts with finalVideoPath := some (finalVideoFile runsDir sid) },
                        finalVideoFile runsDir sid),
                       [.concatenate vs (mergedScenesFile runsDir sid),
                        .copy (mergedScenesFile runsDir sid) (finalVideoFile runsDir sid)]) := by
                    unfold mergeVideoContentCore; rw [hv]
                    simp [hlen, hc, ha, hvo, hmu, finalVideoFile, mergedScenesFile, hv]
                  rw [hcore] at h
                  simp only [Except.ok.injEq, Prod.mk.injEq] at h
                  refine ⟨h.2.symm, ?_⟩
                  rw [hcore]
                  exact ⟨.copy (mergedScenesFile runsDir sid) (finalVideoFile runsDir sid),
                    by simp, by simp [writesFinal]⟩

theorem mergeStageOp_error_preserves (sid runsDir : String)
    (o : Nat → MergeOracles) (k : Nat) (st : RunState) (e : ThrownError)
    (h : runSafe st sid) (hr : (mergeStageOp sid runsDir o k st).2 = .error e) :
    runSafe ((mergeStageOp sid runsDir o k st).1) sid := by
  have h1 : runSafe (st.stageUpdate sid .merge .processing
      (some "Merging videos and audio...") none none) sid :=
    ⟨mgrMergeSafe_updateStageStatus_merge st.mgr sid .processing _ none none
      st.clock (by simp) h.1, h.2⟩
  unfold mergeStageOp at hr ⊢
  cases hra : (mergeVideoContentCore runsDir sid st.arts (o k)).1 with
  | ok pr =>
      rcases pr with ⟨a, p⟩
      simp only [hra] at hr
      simp at hr
  | error e2 =>
      simp only [hra]
      exact ⟨mgrMergeSafe_updateStageStatus_merge _ sid .error _ none _ _
        (by simp) h1.1, h1.2⟩

theorem mergeStageOp_ok_done (sid runsDir : String)
    (o : Nat → MergeOracles) (k : Nat) (st : RunState)
    (h : runSafe st sid) (hr : (mergeStageOp sid runsDir o k st).2 = .ok ()) :
    mergeDone ((mergeStageOp sid runsDir o k st).1) sid runsDir := by
  have h1 : mgrMergeSafe (st.stageUpdate sid .merge .processing
      (some "Merging videos and audio...") none none).mgr sid :=
    mgrMergeSafe_updateStageStatus_merge st.mgr sid .processing _ none none
      st.clock (by simp) h.1
  unfold mergeStageOp at hr ⊢
  cases hra : (mergeVideoContentCore runsDir sid st.arts (o k)).1 with
  | error e2 =>
      simp only [hra] at hr
      simp at hr
  | ok pr =>
      rcases pr with ⟨a, p⟩
      obtain ⟨hp, act, hactmem, hactw⟩ :=
        mergeVideoContentCore_ok runsDir sid st.arts (o k) a p h.2 hra
      simp only [hra]
      constructor
      · subst hp
        exact mgrMergeDone_establish _ sid runsDir _ none none _ _ h1
      · exact ⟨act, by simp [RunState.stageUpdate, hactmem], hactw⟩

theorem executeWithRetryS_succ
    (op : Nat → RunState → RunState × Except ThrownError PUnit)
    (stg : Option String) (maxR attempt fuel : Nat) (st : RunState) :
    executeWithRetryS op stg maxR attempt (fuel + 1) st =
      match (op attempt st).2 with
      | .ok _ => ((op attempt st).1, .ok ())
      | .error err =>
          if shouldRetry (toAppError err none stg) attempt maxR then
            executeWithRetryS op stg maxR (attempt + 1) fuel (op attempt st).1
          else ((op attempt st).1, .error (some (toAppError err none stg))) := rfl

/-- Hoare-style rule for the state-threaded retry loop: if each attempt
preserves `P` on failure and establishes `Q` on success, the loop's final
state satisfies `Q` when it returns ok and `P` when it returns an error. -/
theorem executeWithRetryS_spec (P Q : RunState → Prop)
    (op : Nat → RunState → RunState × Except ThrownError PUnit)
    (stg : Option String) (maxR : Nat)
    (hok : ∀ k st, P st → (op k st).2 = .ok () → Q ((op k st).1))
    (herr : ∀ k st e, P st → (op k st).2 = .error e → P ((op k st).1)) :
    ∀ (fuel attempt : Nat) (st : RunState), P st →
      ((executeWithRetryS op stg maxR attempt fuel st).2 = .ok () →
        Q (executeWithRetryS op stg maxR attempt fuel st).1) ∧
      (∀ e, (executeWithRetryS op stg maxR attempt fuel st).2 = .error e →
        P (executeWithRetryS op stg maxR attempt fuel st).1) := by
  intro fuel
  induction fuel with
  | zero =>
      intro attempt st hP
      exact ⟨fun h => by simp [executeWithRetryS] at h, fun e _ => hP⟩
  | succ fuel ih =>
      intro attempt st hP
      rw [executeWithRetryS_succ]
      split
      · next u heq =>
          cases u
          exact ⟨fun _ => hok attempt st hP heq, fun e he => by simp at he⟩
      · next err heq =>
          split
          · next hsr =>
              exact ih (attempt + 1) ((op attempt st).1) (herr attempt st err hP heq)
          · next hsr =>
              exact ⟨fun h => by simp at h, fun e _ => herr attempt st err hP heq⟩

/-- sequencing rule: if the first stage leaves the state merge-safe on both
outcomes and the rest of the pipeline (from any merge-safe state) satisfies
the pipeline contract, so does the whole -/
theorem pipelineStep_spec (sid runsDir : String)
    (sr : RunState × Except (Option AppErrorModel) PUnit)
    (rest : RunState → RunState × Except (Option AppErrorModel) PUnit)
    (hok : sr.2 = .ok () → runSafe sr.1 sid)
    (herr : ∀ e, sr.2 = .error e → runSafe sr.1 sid)
    (hrest : ∀ s, runSafe s sid →
      ((rest s).2 = .ok () → mergeDone (rest s).1 sid runsDir) ∧
      (∀ e, (rest s).2 = .error e → runSafe (rest s).1 sid)) :
    ((pipelineStep sr rest).2 = .ok () →
      mergeDone (pipelineStep sr rest).1 sid runsDir) ∧
    (∀ e, (pipelineStep sr rest).2 = .error e →
      runSafe (pipelineStep sr rest).1 sid) := by
  unfold pipelineStep
  cases h2 : sr.2 with
  | ok u => cases u; exact hrest sr.1 (hok h2)
  | error e =>
      exact ⟨fun h => by simp at h, fun e2 _ => herr e h2⟩

/-- the pipeline: ok ⇒ the merge stage completed (with the final file
written and exposed); error ⇒ the session is still merge-safe (merge not
completed, no final video path) -/
theorem executeGenerationPipeline_spec (req : GenerationRequest)
    (sid runsDir : String) (oracles : PipelineOracles) (st : RunState)
    (hP : runSafe st sid) :
    ((executeGenerationPipeline req sid runsDir oracles st).2 = .ok () →
      mergeDone (executeGenerationPipeline req sid runsDir oracles st).1 sid runsDir) ∧
    (∀ e, (executeGenerationPipeline req sid runsDir oracles st).2 = .error e →
      runSafe (executeGenerationPipeline req sid runsDir oracles st).1 sid) := by
  unfold executeGenerationPipeline
  have hprompts := executeWithRetryS_spec (fun s => runSafe s sid) (fun s => runSafe s sid)
    (promptsStageOp sid oracles.promptsResult) (some "prompts") 3
    (fun k s hs _ => promptsStageOp_preserves sid oracles.promptsResult k s hs)
    (fun k s e hs _ => promptsStageOp_preserves sid oracles.promptsResult k s hs)
    3 1 st hP
  refine pipelineStep_spec sid runsDir _ _ (fun h => hprompts.1 h)
    (fun e he => hprompts.2 e he) ?_
  intro s1 hs1
  have himages := executeWithRetryS_spec (fun s => runSafe s sid) (fun s => runSafe s sid)
    (imagesStageOp sid oracles.imagesResult) (some "images") 3
    (fun k s hs _ => imagesStageOp_preserves sid oracles.imagesResult k s hs)
    (fun k s e hs _ => imagesStageOp_preserves sid oracles.imagesResult k s hs)
    3 1 s1 hs1
  refine pipelineStep_spec sid runsDir _ _ (fun h => himages.1 h)
    (fun e he => himages.2 e he) ?_
  intro s2 hs2
  have hvideos := executeWithRetryS_spec (fun s => runSafe s sid) (fun s => runSafe s sid)
    (videosStageOp sid oracles.videosResult) (some "videos") 3
    (fun k s hs _ => videosStageOp_preserves sid oracles.videosResult k s hs)
    (fun k s e hs _ => videosStageOp_preserves sid oracles.videosResult k s hs)
    3 1 s2 hs2
  refine pipelineStep_spec sid runsDir _ _ (fun h => hvideos.1 h)
    (fun e he => hvideos.2 e he) ?_
  intro s3 hs3
  have haudio : ((if req.includeVoiceover || req.includeMusic then
        executeWithRetryS (audioStageOp sid req oracles.musicResult)
          (some "audio") 3 1 3 s3
      else (s3, .ok ())).2 = .ok () →
        runSafe (if req.includeVoiceover || req.includeMusic then
          executeWithRetryS (audioStageOp sid req oracles.musicResult)
            (some "audio") 3 1 3 s3
        else (s3, .ok ())).1 sid) ∧
      (∀ e, (if req.includeVoiceover || req.includeMusic then
        executeWithRetryS (audioStageOp sid req oracles.musicResult)
          (some "audio") 3 1 3 s3
      else (s3, .ok ())).2 = .error e →
        runSafe (if req.includeVoiceover || req.includeMusic then
          executeWithRetryS (audioStageOp sid req oracles.musicResult)
            (some "audio") 3 1 3 s3
        else (s3, .ok ())).1 sid) := by
    by_cases hf : (req.includeVoiceover || req.includeMusic) = true
    · rw [if_pos hf]
      exact executeWithRetryS_spec (fun s => runSafe s sid) (fun s => runSafe s sid)
        (audioStageOp sid req oracles.musicResult) (some "audio") 3
        (fun k s hs _ => audioStageOp_preserves sid req oracles.musicResult k s hs)
        (fun k s e hs _ => audioStageOp_preserves sid req oracles.musicResult k s hs)
        3 1 s3 hs3
    · rw [if_neg hf]
      exact ⟨fun _ => hs3, fun e he => by simp at he⟩
  refine pipelineStep_spec sid runsDir _ _ (fun h => haudio.1 h)
    (fun e he => haudio.2 e he) ?_
  intro s4 hs4
  exact executeWithRetryS_spec (fun s => runSafe s sid)
    (fun s => mergeDone s sid runsDir)
    (mergeStageOp sid runsDir oracles.mergeResult) (some "merge") 3
    (fun k s hs h => mergeStageOp_ok_done sid runsDir oracles.mergeResult k s hs h)
    (fun k s e hs h => mergeStageOp_error_preserves sid runsDir oracles.mergeResult k s e hs h)
    3 1 s4 hs4

theorem createSession_mergeSafe (m0 : SessionManager) (req : GenerationRequest)
    (img sid : String) (t : Nat) :
    mgrMergeSafe ((m0.createSession req img sid t).2) sid := by
  refine ⟨(m0.createSession req img sid t).1,
    { stage := .merge, status := .pending }, get_insert_self m0 sid _, ?_, by simp, ?_⟩
  · obtain ⟨sc, d, vo, mu, io⟩ := req
    cases vo <;> cases mu <;> rfl
  · obtain ⟨sc, d, vo, mu, io⟩ := req
    cases vo <;> cases mu <;> rfl

theorem runSafe_sessionUpdate (st : RunState) (sid : String)
    (status : SessionStatus) (err : Option String) (h : runSafe st sid) :
    runSafe (st.sessionUpdate sid status err) sid :=
  ⟨mgrMergeSafe_updateSessionStatus st.mgr sid status err none st.clock h.1, h.2⟩

theorem mergeDone_sessionUpdate (st : RunState) (sid runsDir : String)
    (status : SessionStatus) (err : Option String) (h : mergeDone st sid runsDir) :
    mergeDone (st.sessionUpdate sid status err) sid runsDir :=
  ⟨mgrMergeDone_updateSessionStatus st.mgr sid runsDir status err none st.clock h.1,
   h.2⟩

theorem sessionUpdate_status (st : RunState) (sid : String)
    (status : SessionStatus) (err : Option String) (s : GenerationSession)
    (h : st.mgr.get sid = some s) :
    ((st.sessionUpdate sid status err).mgr.get sid).map GenerationSession.status =
      some status :=
  updateSessionStatus_status_some st.mgr sid status err none st.clock s h

/-- C2: a session created by one run of `generateVideo` ends `completed`
precisely when the run succeeds, which requires the merge stage to have
completed successfully: then the merge stage's record is `completed`, the
final video path is exposed, and a media action wrote the final file.  On
any run in which the merge stage does not finish successfully the session
ends `failed`, its merge stage is not `completed`, and no final video path
is exposed. -/
theorem c2_completed_requires_successful_merge (req : GenerationRequest)
    (img sid runsDir : String) (oracles : PipelineOracles)
    (m0 : SessionManager) (clock0 : Nat) :
    ∃ s, ((generateVideoRun req img sid runsDir oracles m0 clock0).1).mgr.get sid
        = some s ∧
      (s.status = .completed ↔
        (generateVideoRun req img sid runsDir oracles m0 clock0).2 = .ok sid) ∧
      (s.status = .completed →
        ∃ rec, mergeRecordOf s = some rec ∧ rec.status = .completed ∧
          s.finalVideoPath = some (finalVideoFile runsDir sid) ∧
          ∃ a ∈ ((generateVideoRun req img sid runsDir oracles m0 clock0).1).mergeActions,
            writesFinal runsDir sid a = true) ∧
      (s.status ≠ .completed →
        s.status = .failed ∧ s.finalVideoPath = none ∧
        ∀ rec, mergeRecordOf s = some rec → rec.status ≠ .completed) := by
  have hsafe1 : runSafe (RunState.sessionUpdate
      { mgr := (m0.createSession req img sid clock0).2, clock := clock0 + 1 }
      sid .processing none) sid := by
    refine runSafe_sessionUpdate _ sid .processing none ⟨?_, ?_⟩
    · exact createSession_mergeSafe m0 req img sid clock0
    · intro ap hap
      simp at hap
  have hspec := executeGenerationPipeline_spec req sid runsDir oracles _ hsafe1
  unfold generateVideoRun finishRun
  split
  · next u heq =>
      cases u
      have hdone := hspec.1 heq
      have hdone2 := mergeDone_sessionUpdate _ sid runsDir .completed none hdone
      obtain ⟨⟨s', rec, hget', hrec', hcomp, hfvp⟩, a, ham, haw⟩ := hdone2
      have hstat := sessionUpdate_status _ sid .completed none _
        (hdone.1.choose_spec.choose_spec.1)
      rw [hget'] at hstat
      have hs'stat : s'.status = .completed := by simpa using hstat
      refine ⟨s', hget', ?_, ?_, ?_⟩
      · exact iff_of_true hs'stat rfl
      · intro _
        exact ⟨rec, hrec', hcomp, hfvp, a, ham, haw⟩
      · intro hne
        exact absurd hs'stat hne
  · next e heq =>
      have hsafe2 := hspec.2 e heq
      have hsafe3 := runSafe_sessionUpdate _ sid .failed
        (some (match e with
          | some e2 => e2
          | none => handleServiceError {} none none).message) hsafe2
      obtain ⟨s', rec, hget', hrec', hne, hfv⟩ := hsafe3.1
      have hstat := sessionUpdate_status _ sid .failed
        (some (match e with
          | some e2 => e2
          | none => handleServiceError {} none none).message) _
        (hsafe2.1.choose_spec.choose_spec.1)
      rw [hget'] at hstat
      have hs'stat : s'.status = .failed := by simpa using hstat
      refine ⟨s', hget', ?_, ?_, ?_⟩
      · refine iff_of_false (by simp [hs'stat]) ?_
        intro hcon
        exact Except.noConfusion hcon
      · intro hcon
        rw [hs'stat] at hcon
        exact absurd hcon (by simp)
      · intro _
        refine ⟨hs'stat, hfv, ?_⟩
        intro rec0 hrec0
        rw [hrec'] at hrec0
        have : rec0 = rec := by simpa using hrec0.symm
        rw [this]
        exact hne

/-- witness for C2: a concrete all-successful single-scene run without audio -/
theorem c2_completed_requires_successful_merge_witness :
    ∃ s, ((generateVideoRun
        { sceneCount := 1, description := "d", includeVoiceover := false,
          includeMusic := false } "img" "s" "runs"
        { promptsResult := fun _ => .ok
            { scenePrompts := [{ sceneNumber := 1, imagePrompt := "a", videoPrompt := "b" }] }
          imagesResult := fun _ => .ok ["i1"]
          videosResult := fun _ => .ok ["v1"]
          musicResult := fun _ => .ok "m"
          mergeResult := fun _ => {} }
        SessionManager.empty 0).1).mgr.get "s" = some s ∧
      (s.status = .completed ↔
        (generateVideoRun
          { sceneCount := 1, description := "d", includeVoiceover := false,
            includeMusic := false } "img" "s" "runs"
          { promptsResult := fun _ => .ok
              { scenePrompts := [{ sceneNumber := 1, imagePrompt := "a", videoPrompt := "b" }] }
            imagesResult := fun _ => .ok ["i1"]
            videosResult := fun _ => .ok ["v1"]
            musicResult := fun _ => .ok "m"
            mergeResult := fun _ => {} }
          SessionManager.empty 0).2 = .ok "s") ∧
      (s.status = .completed →
        ∃ rec, mergeRecordOf s = some rec ∧ rec.status = .completed ∧
          s.finalVideoPath = some (finalVideoFile "runs" "s") ∧
          ∃ a ∈ ((generateVideoRun
              { sceneCount := 1, description := "d", includeVoiceover := false,
                includeMusic := false } "img" "s" "runs"
              { promptsResult := fun _ => .ok
                  { scenePrompts := [{ sceneNumber := 1, imagePrompt := "a", videoPrompt := "b" }] }
                imagesResult := fun _ => .ok ["i1"]
                videosResult := fun _ => .ok ["v1"]
                musicResult := fun _ => .ok "m"
                mergeResult := fun _ => {} }
              SessionManager.empty 0).1).mergeActions,
            writesFinal "runs" "s" a = true) ∧
      (s.status ≠ .completed →
        s.status = .failed ∧ s.finalVideoPath = none ∧
        ∀ rec, mergeRecordOf s = some rec → rec.status ≠ .completed) :=
  c2_completed_requires_successful_merge
    { sceneCount := 1, description := "d", includeVoiceover := false,
      includeMusic := false } "img" "s" "runs"
    { promptsResult := fun _ => .ok
        { scenePrompts := [{ sceneNumber := 1, imagePrompt := "a", videoPrompt := "b" }] }
      imagesResult := fun _ => .ok ["i1"]
      videosResult := fun _ => .ok ["v1"]
      musicResult := fun _ => .ok "m"
      mergeResult := fun _ => {} }
    SessionManager.empty 0

end FaceApp
